import Mathlib

/-!
Verification of the mne-onboarding benchmark scripts.

The repository contains four small scripts.  Each builds a fixed
pseudo-random integer matrix

  ARR = np.random.default_rng(seed=8675309).integers(10, size=(2, n))

and computes the dot product of that matrix with its own transpose using one
of four strategies (`my_func` in each script):

* `my_script.py`            - per-cell `np.sum(input_array[rix] * input_array.T[:, cix])`
                              into an `np.empty` buffer, result printed;
* `optimization/script_mprof.py`       - naive triple loop accumulating into `np.zeros`;
* `optimization/script_bcast_mprof.py` - per-row broadcast product reduced with
                              `np.sum(..., axis=0)`;
* `optimization/script_dot.py`         - `input_array @ input_array.T`.

The three `optimization/` scripts assert the result equals
`[[2842216, 2016906], [2016906, 2840381]]` for seed 8675309, n = 100000.

This file gives a shallow embedding of all of this.  Matrices are
`List (List Int)` (row major, like a C-contiguous ndarray).  The random
generator pipeline (`numpy.random.SeedSequence`, the PCG64 bit generator and
the bounded-integer sampling used by `Generator.integers`) is embedded over
`Nat` with explicit `% 2^32`, `% 2^64`, `% 2^128` where the original code
uses fixed-width machine words.  Unbounded loops (the rejection loop of the
bounded sampler) take an explicit fuel argument and return `Option`.
-/

set_option maxRecDepth 10000000

/-! ### numpy SeedSequence

Constants and hashing routines from `numpy/random/bit_generator.pyx`
(`DEFAULT_POOL_SIZE = 4`, `XSHIFT = 16`).  All arithmetic is on `uint32`,
embedded as `Nat` with explicit `% 2^32`. -/

def INIT_A : Nat := 0x43b0d7e5
def MULT_A : Nat := 0x931e8875
def INIT_B : Nat := 0x8b51f9dd
def MULT_B : Nat := 0x58f38ded
def MIX_MULT_L : Nat := 0xca01f9dd
def MIX_MULT_R : Nat := 0x4973f715

/-- SeedSequence `hashmix`: updates the running hash constant and hashes one
32-bit word.  Returns `(new hash constant, hashed value)`. -/
def hashmix (hc value : Nat) : Nat × Nat :=
  let value := value ^^^ hc
  let hc := (hc * MULT_A) % 2^32
  let value := (value * hc) % 2^32
  (hc, value ^^^ (value >>> 16))

/-- SeedSequence `mix`: combines two pool words (uint32 arithmetic, the
subtraction wraps modulo `2^32`). -/
def mixPool (x y : Nat) : Nat :=
  let r := ((x * MIX_MULT_L) % 2^32 + 2^32 - (y * MIX_MULT_R) % 2^32) % 2^32
  r ^^^ (r >>> 16)

/-- Little-endian base-`2^32` digits of a natural number; helper for
`toUInt32Words` (fuel-driven so that the recursion is structural). -/
def toUInt32WordsAux : Nat → Nat → List Nat
  | 0, _ => []
  | fuel+1, e => if e = 0 then [] else e % 2^32 :: toUInt32WordsAux fuel (e / 2^32)

/-- numpy `_coerce_to_uint32_array` on a non-negative Python int: its
little-endian base-`2^32` digits, with `[0]` for zero. -/
def toUInt32Words (e : Nat) : List Nat :=
  if e = 0 then [0] else toUInt32WordsAux e e

/-- SeedSequence `mix_entropy` with the default pool size 4: feeds the
entropy words into the pool, then mixes every source word into every other
pool word, then folds in any entropy words beyond the pool size.  The state
threaded through the folds is `(hash constant, pool)`. -/
def mixEntropy (entropy : List Nat) : List Nat :=
  let s1 := (List.range 4).foldl
    (fun (acc : Nat × List Nat) i =>
      let (hc, h) := hashmix acc.1 (entropy.getD i 0)
      (hc, acc.2 ++ [h])) (INIT_A, [])
  let s2 := (List.range 4).foldl (fun acc isrc =>
      (List.range 4).foldl (fun (acc : Nat × List Nat) idst =>
        if isrc = idst then acc else
          let (hc, h) := hashmix acc.1 (acc.2.getD isrc 0)
          (hc, acc.2.set idst (mixPool (acc.2.getD idst 0) h))) acc) s1
  let s3 := (entropy.drop 4).foldl (fun acc w =>
      (List.range 4).foldl (fun (acc : Nat × List Nat) idst =>
        let (hc, h) := hashmix acc.1 w
        (hc, acc.2.set idst (mixPool (acc.2.getD idst 0) h))) acc) s2
  s3.2

/-- SeedSequence `generate_state`: cycles over the pool hashing out `nwords`
32-bit output words with hash constant seeded by `INIT_B`. -/
def generateStateWords (pool : List Nat) (nwords : Nat) : List Nat :=
  ((List.range nwords).foldl (fun (acc : Nat × List Nat) i =>
    let dv := (pool.getD (i % 4) 0) ^^^ acc.1
    let hc := (acc.1 * MULT_B) % 2^32
    let dv := (dv * hc) % 2^32
    let dv := dv ^^^ (dv >>> 16)
    (hc, acc.2 ++ [dv])) (INIT_B, [])).2

/-! ### PCG64

The PCG64 bit generator of numpy (`numpy/random/src/pcg64/pcg64.h`): a
128-bit linear congruential state with the XSL-RR output function. -/

def PCG_MULT : Nat := 0x2360ed051fc65da44385df649fccf645

/-- PCG64 state: the 128-bit LCG state and the (odd) 128-bit increment. -/
structure Pcg where
  state : Nat
  inc : Nat

/-- One LCG step: `state = state * PCG_DEFAULT_MULTIPLIER_128 + inc` on
128 bits. -/
def pcgStep (g : Pcg) : Pcg := ⟨(g.state * PCG_MULT + g.inc) % 2^128, g.inc⟩

/-- 64-bit rotate right (`pcg_rotr_64`). -/
def rotr64 (v r : Nat) : Nat := ((v >>> r) ||| (v <<< ((64 - r) % 64))) % 2^64

/-- XSL-RR output function (`pcg_output_xsl_rr_128_64`): xor-fold the state
to 64 bits and rotate by the top 6 bits. -/
def pcgOutput (s : Nat) : Nat := rotr64 ((s >>> 64) ^^^ (s % 2^64)) (s >>> 122)

/-- One 64-bit draw (`pcg64_next64`): step first, then apply the output
function to the new state. -/
def pcgNext64 (g : Pcg) : Nat × Pcg :=
  let g := pcgStep g
  (pcgOutput g.state, g)

/-- Seeding of `np.random.default_rng(seed)`: SeedSequence generates four
64-bit words (eight 32-bit words, each consecutive pair combined
little-endian); the first two 64-bit words form the 128-bit `initstate`
(high word first), the last two the stream `initseq`; then
`pcg_setseq_128_srandom_r` runs state = 0, inc = 2*initseq+1, step,
state += initstate, step. -/
def pcgSeeded (seed : Nat) : Pcg :=
  let ws := generateStateWords (mixEntropy (toUInt32Words seed)) 8
  let u64 := fun i => ws.getD (2*i) 0 + 2^32 * ws.getD (2*i+1) 0
  let initstate := 2^64 * u64 0 + u64 1
  let initseq := 2^64 * u64 2 + u64 3
  let inc := (2 * initseq + 1) % 2^128
  let g := pcgStep ⟨0, inc⟩
  let g := pcgStep ⟨(g.state + initstate) % 2^128, inc⟩
  g

/-- PCG64 exposed as a (buffered) 32-bit source: `pcg64_next32` hands out the
low half of a 64-bit draw and stashes the high half for the next call. -/
structure Gen32 where
  pcg : Pcg
  buf : Option Nat

/-- One 32-bit draw (`pcg64_next32`). -/
def next32 (g : Gen32) : Nat × Gen32 :=
  match g.buf with
  | some v => (v, ⟨g.pcg, none⟩)
  | none =>
    let (x, p) := pcgNext64 g.pcg
    (x % 2^32, ⟨p, some (x >>> 32)⟩)

/-- Rejection loop of `buffered_bounded_lemire_uint32`: while the low 32 bits
of `m` are below the threshold, redraw.  The source loops unboundedly; here
each retry consumes one unit of fuel and exhaustion gives `none`. -/
def lemireWhile (rngExcl threshold : Nat) : Nat → Nat → Gen32 → Option (Nat × Gen32)
  | fuel, m, g =>
    if m % 2^32 ≥ threshold then some (m >>> 32, g)
    else
      match fuel with
      | 0 => none
      | f+1 =>
        let (u, g') := next32 g
        lemireWhile rngExcl threshold f (u * rngExcl) g'

/-- Lemire bounded sampling (`buffered_bounded_lemire_uint32`) for the
inclusive range width `rng`: scale a 32-bit draw by `rng + 1`; if the low
32 bits of the product are below `(2^32 - 1 - rng) % (rng + 1)` the draw is
biased and is rejected; the result is the high 32 bits of the product. -/
def lemireDraw (rng fuel : Nat) (g : Gen32) : Option (Nat × Gen32) :=
  let rngExcl := rng + 1
  let (u, g) := next32 g
  let m := u * rngExcl
  if m % 2^32 < rngExcl then
    lemireWhile rngExcl ((2^32 - 1 - rng) % rngExcl) fuel m g
  else some (m >>> 32, g)

/-- The fill loop of `random_bounded_uint64_fill` (the `rng <= 0xFFFFFFFF`
branch used by `Generator.integers` with `high = 10`): draw `count` bounded
values in order, threading the generator state. -/
def drawList (rng fuel : Nat) : Nat → Gen32 → Option (List Nat × Gen32)
  | 0, g => some ([], g)
  | c+1, g =>
    match lemireDraw rng fuel g with
    | none => none
    | some (d, g') =>
      match drawList rng fuel c g' with
      | none => none
      | some (ds, g'') => some (d :: ds, g'')

/-- Reshape of the C-ordered draw buffer into `r` rows of `numCols` entries
(numpy fills `size=(r, numCols)` row-major). -/
def reshapeRows : Nat → Nat → List Nat → List (List Nat)
  | 0, _, _ => []
  | r+1, numCols, ds => ds.take numCols :: reshapeRows r numCols (ds.drop numCols)

/-- Embedding of `np.random.default_rng(seed).integers(bound, size=(r, numCols))`
for `0 < bound ≤ 2^32`: seed PCG64 through SeedSequence, draw `r * numCols`
bounded values and reshape them row-major. -/
def npIntegers (seed bound r numCols fuel : Nat) : Option (List (List Nat)) :=
  (drawList (bound - 1) fuel (r * numCols) ⟨pcgSeeded seed, none⟩).map
    (fun p => reshapeRows r numCols p.1)

/-- Error raised by numpy when an ndarray is created with a negative
dimension (`ValueError: negative dimensions are not allowed`); the spec
calls this error InvalidDimension. -/
inductive NpError where
  | invalidDimension
deriving DecidableEq

/-- Generator entry point with signed dimensions, as numpy accepts them:
a negative row or column count raises, any non-negative shape (including
zero) is filled.  The inner `Option` is the fuel artifact of `npIntegers`. -/
def defaultRngIntegers (seed bound : Nat) (r numCols : Int) (fuel : Nat) :
    Except NpError (Option (List (List Nat))) :=
  if r < 0 ∨ numCols < 0 then .error .invalidDimension
  else .ok (npIntegers seed bound r.toNat numCols.toNat fuel)

/-- The generated matrix `ARR` of the three `optimization/` scripts
(`n = 100_000`), with entries as unbounded integers. -/
def ARR (fuel : Nat) : Option (List (List Nat)) := npIntegers 8675309 10 2 100000 fuel

/-! ### Matrices

An `R × N` ndarray of int64 is embedded as a row-major `List (List Int)`;
`Rect M R N` says the list really is an `R × N` grid.  Indexing out of range
yields the (never relevant) default 0, mirroring that a real ndarray access
is always in range. -/

/-- Well-formedness: `M` has `R` rows, each of length `N` (every 2-D ndarray
satisfies this; ragged grids cannot be ndarrays). -/
def Rect (M : List (List Int)) (R N : Nat) : Prop :=
  M.length = R ∧ ∀ row ∈ M, row.length = N

/-- Entry `M[i, j]` of the embedded matrix. -/
def entry (M : List (List Int)) (i j : Nat) : Int := (M.getD i []).getD j 0

/-- Elementwise product of two equal-length vectors (numpy `a * b`). -/
def rowMul (a b : List Int) : List Int := List.zipWith (· * ·) a b

/-- numpy `np.sum` of a 1-D integer array. -/
def npSum (l : List Int) : Int := l.foldr (· + ·) 0

/-- Column `j` of a matrix (`B[:, j]`). -/
def col (B : List (List Int)) (j : Nat) : List Int := B.map (fun row => row.getD j 0)

/-- Transpose (`input_array.T`).  Defined structurally; on an `R × N` grid
with `R ≥ 1` it is the `N × R` grid of swapped indices (shown below by
`transposeL_eq_map_range`). -/
def transposeL : List (List Int) → List (List Int)
  | [] => []
  | [row] => row.map (fun x => [x])
  | row :: rest => List.zipWith (· :: ·) row (transposeL rest)

/-- Matrix product `A @ B` where `B` has `bcols` columns (the column count is
carried explicitly because an empty list of rows loses the ndarray's shape). -/
def matmul (A B : List (List Int)) (bcols : Nat) : List (List Int) :=
  A.map (fun arow => (List.range bcols).map (fun j => npSum (rowMul arow (col B j))))

/-- Cast the generated `Nat` matrix to the `Int` matrices `my_func` eats. -/
def toIntMatrix (M : List (List Nat)) : List (List Int) :=
  M.map (fun row => row.map Int.ofNat)

/-! ### The four `my_func` variants

Each is written as the value of `result` when the source's loops finish.
All four sources fill every cell of `result` (cell `(rix, cix)`, or row
`rix`) exactly once with a value read only from `input_array`, so `result`
is the grid of those per-cell values; the write-by-write mutation of the
buffer is modelled separately below (`myFuncPrintBuf`, `myFuncNaiveRun`)
and proved to produce these same values. -/

/-- my_script.py: `result[rix, cix] = np.sum(input_array[rix] * input_array.T[:, cix])`
over `rix, cix in range(nrow)` with `nrow = input_array.shape[0]`. -/
def my_func_print (M : List (List Int)) : List (List Int) :=
  let nrow := M.length
  (List.range nrow).map (fun rix =>
    (List.range nrow).map (fun cix =>
      npSum (rowMul (M.getD rix []) (col (transposeL M) cix))))

/-- script_mprof.py: triple loop
`result[rix, cix] += input_array[rix, eix] * input_array.T[eix, cix]` over
`eix in range(ncol)`, starting from `np.zeros`; the cell ends at the sum the
loop accumulates.  `nrow, ncol = input_array.shape`. -/
def my_func_mprof (M : List (List Int)) : List (List Int) :=
  let nrow := M.length
  let ncol := (M.headD []).length
  (List.range nrow).map (fun rix =>
    (List.range nrow).map (fun cix =>
      (List.range ncol).foldl
        (fun acc eix => acc + entry M rix eix * entry (transposeL M) eix cix) 0))

/-- Broadcast product `input_array[rix][:, np.newaxis] * input_array.T`:
the `(ncol, nrow)` grid whose row `k` is `input_array[rix, k] * input_array.T[k]`. -/
def bcastProd (M : List (List Int)) (rix : Nat) : List (List Int) :=
  List.zipWith (fun x trow => trow.map (fun y => x * y)) (M.getD rix []) (transposeL M)

/-- Elementwise vector sum (one step of `np.sum(..., axis=0)`). -/
def vecAdd (a b : List Int) : List Int := List.zipWith (· + ·) a b

/-- numpy `np.sum(P, axis=0)` for a grid with `width` columns: fold the rows
into the zero vector elementwise. -/
def sumAxis0 (P : List (List Int)) (width : Nat) : List Int :=
  P.foldl vecAdd (List.replicate width 0)

/-- script_bcast_mprof.py:
`result[rix] = np.sum(input_array[rix][:, np.newaxis] * input_array.T, axis=0)`
for every `rix in range(nrow)` (each row of the `np.zeros` buffer is
overwritten exactly once). -/
def my_func_bcast (M : List (List Int)) : List (List Int) :=
  let nrow := M.length
  (List.range nrow).map (fun rix => sumAxis0 (bcastProd M rix) nrow)

/-- script_dot.py: `result = input_array @ input_array.T`.  The transpose of
an `R × N` array has `R` columns. -/
def my_func_dot (M : List (List Int)) : List (List Int) :=
  matmul M (transposeL M) M.length

/-! ### The specification's result matrix

Written from the spec's words (section 3: "Entry (i, j) = Σ_k
Input[i][k] × Input[j][k]"), for comparison with the four variants. -/

/-- Specified result: the `R × R` grid with entry `(i, j)` equal to
`Σ_{k < N} M[i][k] * M[j][k]`. -/
def gramSpec (M : List (List Int)) (R N : Nat) : List (List Int) :=
  (List.range R).map (fun i =>
    (List.range R).map (fun j =>
      ((List.range N).map (fun k => entry M i k * entry M j k)).sum))

/-! ### Mutation-level models

The sources fill their `result` buffers by indexed assignment inside loops.
To settle the frame claims (the input array is never written, every cell of
the `np.empty` buffer is written before use) the two assignment loops are
also modelled write by write, threading the pair (input array, result
buffer) through every iteration. -/

/-- Indexed assignment `B[r][c] = v` on a row-major buffer. -/
def writeCell {α : Type} (B : List (List α)) (r c : Nat) (v : α) : List (List α) :=
  B.set r ((B.getD r []).set c v)

/-- Read `B[r][c]` with default `d`. -/
def getCell {α : Type} (B : List (List α)) (r c : Nat) (d : α) : α :=
  (B.getD r []).getD c d

/-- Machine state of a `my_func` run: the input array and the result buffer
(with cells of type `α`: `Int` for a `np.zeros` buffer, `Option Int` for an
`np.empty` buffer whose unwritten cells are `none`). -/
structure NpRun (α : Type) where
  inp : List (List Int)
  res : List (List α)

/-- The loop of my_script.py executed write by write: starting from the
uninitialised `nrow × nrow` buffer, for `rix, cix in range(nrow)` assign
`result[rix, cix] = np.sum(input_array[rix] * input_array.T[:, cix])`,
always reading the input from the threaded state. -/
def myFuncPrintRun (M : List (List Int)) : NpRun (Option Int) :=
  let nrow := M.length
  (List.range nrow).foldl (fun st rix =>
    (List.range nrow).foldl (fun st cix =>
      ⟨st.inp, writeCell st.res rix cix
        (some (npSum (rowMul (st.inp.getD rix []) (col (transposeL st.inp) cix))))⟩) st)
    ⟨M, List.replicate nrow (List.replicate nrow none)⟩

/-- The triple loop of script_mprof.py executed write by write: for
`rix, cix, eix` do
`result[rix, cix] += input_array[rix, eix] * input_array.T[eix, cix]`,
reading the current cell and the threaded input each iteration (the buffer
starts as `np.zeros`). -/
def myFuncMprofRun (M : List (List Int)) : NpRun Int :=
  let nrow := M.length
  let ncol := (M.headD []).length
  (List.range nrow).foldl (fun st rix =>
    (List.range nrow).foldl (fun st cix =>
      (List.range ncol).foldl (fun st eix =>
        ⟨st.inp, writeCell st.res rix cix
          (getCell st.res rix cix 0 + entry st.inp rix eix * entry (transposeL st.inp) eix cix)⟩) st) st)
    ⟨M, List.replicate nrow (List.replicate nrow 0)⟩

/-- The row loop of script_bcast_mprof.py executed write by write: for
`rix in range(nrow)` assign
`result[rix] = np.sum(input_array[rix][:, np.newaxis] * input_array.T, axis=0)`
into the `np.zeros` buffer, reading the input from the threaded state. -/
def myFuncBcastRun (M : List (List Int)) : NpRun Int :=
  let nrow := M.length
  (List.range nrow).foldl (fun st rix =>
    ⟨st.inp, st.res.set rix (sumAxis0 (bcastProd st.inp rix) nrow)⟩)
    ⟨M, List.replicate nrow (List.replicate nrow 0)⟩

/-! ### Runners for the concrete regression value

Evaluating `drawList` at count 200000 directly is out of reach of kernel
reduction (the recursion is not tail-shaped), so two tail-shaped runners are
defined and proved equal to `drawList` compositions; they are then evaluated
in chunks. -/

/-- Advance the generator past `k` bounded draws, keeping only the state. -/
def advanceN (rng fuel : Nat) : Nat → Gen32 → Option Gen32
  | 0, g => some g
  | k+1, g =>
    match lemireDraw rng fuel g with
    | none => none
    | some (_, g') => advanceN rng fuel k g'

/-- Two-cursor fold: cursor `gA` walks the first row's draws, cursor `gB`
the second row's, and the three pairwise dot products accumulate in
`a`, `b`, `c`. -/
def gramFold (rng fuel : Nat) :
    Nat → Gen32 → Gen32 → Nat → Nat → Nat → Option (Gen32 × Gen32 × Nat × Nat × Nat)
  | 0, gA, gB, a, b, c => some (gA, gB, a, b, c)
  | k+1, gA, gB, a, b, c =>
    match lemireDraw rng fuel gA with
    | none => none
    | some (dA, gA') =>
      match lemireDraw rng fuel gB with
      | none => none
      | some (dB, gB') => gramFold rng fuel k gA' gB' (a + dA*dA) (b + dA*dB) (c + dB*dB)

/-- Dot product of two draw rows over `Nat`. -/
def dotNat (a b : List Nat) : Nat := (List.zipWith (· * ·) a b).sum

/-! ### Generic list lemmas -/

theorem getD_eq_getElem {α : Type} (l : List α) {i : Nat} (h : i < l.length) (d : α) :
    l.getD i d = l[i] := by
  simp [List.getD_eq_getElem?_getD, List.getElem?_eq_getElem h]

theorem getD_map_lt {α β : Type} (f : α → β) {l : List α} {i : Nat} (h : i < l.length)
    (d : β) (d' : α) : (l.map f).getD i d = f (l.getD i d') := by
  simp [List.getD_eq_getElem?_getD, List.getElem?_map, List.getElem?_eq_getElem h,
    getD_eq_getElem l h]

theorem mapRange_getD {α : Type} {n k : Nat} (h : k < n) (f : Nat → α) (d : α) :
    ((List.range n).map f).getD k d = f k := by
  rw [getD_map_lt f (by simpa using h) d 0]
  congr 1
  simp [List.getD_eq_getElem?_getD, List.getElem?_range h]

theorem list_eq_mapRange {α : Type} (l : List α) (d : α) :
    l = (List.range l.length).map (fun k => l.getD k d) := by
  apply List.ext_getElem (by simp)
  intro i h1 h2
  simp only [List.getElem_map, List.getElem_range]
  rw [getD_eq_getElem l h1 d]

theorem map_eq_mapRange {α β : Type} (l : List α) (g : α → β) (d : α) :
    l.map g = (List.range l.length).map (fun i => g (l.getD i d)) := by
  conv_lhs => rw [list_eq_mapRange l d]
  rw [List.map_map]
  rfl

theorem zipWith_mapRange {α β γ : Type} (f : α → β → γ) (n : Nat)
    (g1 : Nat → α) (g2 : Nat → β) :
    List.zipWith f ((List.range n).map g1) ((List.range n).map g2) =
      (List.range n).map (fun k => f (g1 k) (g2 k)) := by
  rw [List.zipWith_map, List.zipWith_same]

theorem foldl_add_eq (g : Nat → Int) (l : List Nat) (a : Int) :
    l.foldl (fun acc k => acc + g k) a = a + (l.map g).sum := by
  induction l generalizing a with
  | nil => simp
  | cons x xs ih => simp [ih, add_assoc]

theorem npSum_eq_sum (l : List Int) : npSum l = l.sum := by
  rw [npSum, List.sum_eq_foldr]

/-! ### Well-formedness helpers -/

theorem rect_row_length {M : List (List Int)} {R N : Nat} (h : Rect M R N)
    {i : Nat} (hi : i < R) : (M.getD i []).length = N := by
  have hlen : i < M.length := h.1 ▸ hi
  rw [getD_eq_getElem M hlen]
  exact h.2 _ (M.getElem_mem hlen)

theorem rect_row_eq {M : List (List Int)} {R N : Nat} (h : Rect M R N)
    {i : Nat} (hi : i < R) :
    M.getD i [] = (List.range N).map (fun k => entry M i k) := by
  conv_lhs => rw [list_eq_mapRange (M.getD i []) 0, rect_row_length h hi]
  rfl

/-! ### Transpose characterization -/

theorem transposeL_char (M : List (List Int)) (N : Nat) (hM : M ≠ [])
    (hrows : ∀ row ∈ M, row.length = N) :
    transposeL M = (List.range N).map (fun k => M.map (fun row => row.getD k 0)) := by
  induction M with
  | nil => exact absurd rfl hM
  | cons row rest ih =>
    cases rest with
    | nil =>
      have hr : row.length = N := hrows row (by simp)
      simp only [transposeL]
      rw [map_eq_mapRange row (fun x => [x]) 0, hr]
      rfl
    | cons x rest2 =>
      have hr : row.length = N := hrows row (by simp)
      have ihe := ih (by simp) (fun r hr2 => hrows r (List.mem_cons_of_mem _ hr2))
      simp only [transposeL]
      rw [ihe]
      conv_lhs => rw [list_eq_mapRange row 0, hr]
      rw [zipWith_mapRange]
      rfl

theorem headD_eq_getD_zero {α : Type} (l : List α) (d : α) : l.headD d = l.getD 0 d := by
  cases l <;> rfl

theorem getD_oob {α : Type} {l : List α} {i : Nat} (h : l.length ≤ i) (d : α) :
    l.getD i d = d := by
  simp [List.getD_eq_getElem?_getD, List.getElem?_eq_none h]

theorem col_transposeL {M : List (List Int)} {R N : Nat} (h : Rect M R N) (hR : 0 < R)
    {j : Nat} (hj : j < R) :
    col (transposeL M) j = (List.range N).map (fun k => entry M j k) := by
  have hM : M ≠ [] := by
    intro e
    rw [e] at h
    simp [Rect] at h
    omega
  rw [col, transposeL_char M N hM h.2, List.map_map]
  apply List.map_congr_left
  intro k _
  show (M.map (fun row => row.getD k 0)).getD j 0 = entry M j k
  rw [getD_map_lt _ (h.1 ▸ hj) 0 []]
  rfl

theorem entry_transposeL {M : List (List Int)} {R N : Nat} (h : Rect M R N) (hR : 0 < R)
    {e : Nat} (he : e < N) (j : Nat) :
    entry (transposeL M) e j = entry M j e := by
  have hM : M ≠ [] := by
    intro hnil
    rw [hnil] at h
    simp [Rect] at h
    omega
  show (((transposeL M).getD e [])).getD j 0 = entry M j e
  rw [transposeL_char M N hM h.2, mapRange_getD he]
  by_cases hj : j < M.length
  · rw [getD_map_lt _ hj 0 []]
    rfl
  · rw [getD_oob (by simpa using Nat.le_of_not_lt hj), entry,
      getD_oob (Nat.le_of_not_lt hj)]
    rfl

theorem cellDot {M : List (List Int)} {R N : Nat} (h : Rect M R N) (hR : 0 < R)
    {i j : Nat} (hi : i < R) (hj : j < R) :
    npSum (rowMul (M.getD i []) (col (transposeL M) j)) =
      ((List.range N).map (fun k => entry M i k * entry M j k)).sum := by
  rw [npSum_eq_sum, rowMul, rect_row_eq h hi, col_transposeL h hR hj, zipWith_mapRange]

/-! ### Each variant computes the specified matrix -/

theorem my_func_print_eq_gramSpec {M : List (List Int)} {R N : Nat} (h : Rect M R N) :
    my_func_print M = gramSpec M R N := by
  simp only [my_func_print, gramSpec, h.1]
  rcases Nat.eq_zero_or_pos R with hR | hR
  · simp [hR]
  apply List.map_congr_left
  intro i hi
  apply List.map_congr_left
  intro j hj
  exact cellDot h hR (List.mem_range.mp hi) (List.mem_range.mp hj)

theorem my_func_dot_eq_gramSpec {M : List (List Int)} {R N : Nat} (h : Rect M R N) :
    my_func_dot M = gramSpec M R N := by
  simp only [my_func_dot, matmul, gramSpec, h.1]
  rcases Nat.eq_zero_or_pos R with hR | hR
  · have : M = [] := List.length_eq_zero.mp (by rw [h.1, hR])
    simp [this, hR]
  rw [map_eq_mapRange M _ [], h.1]
  apply List.map_congr_left
  intro i hi
  apply List.map_congr_left
  intro j hj
  exact cellDot h hR (List.mem_range.mp hi) (List.mem_range.mp hj)

theorem my_func_mprof_eq_gramSpec {M : List (List Int)} {R N : Nat} (h : Rect M R N) :
    my_func_mprof M = gramSpec M R N := by
  simp only [my_func_mprof, gramSpec, h.1]
  rcases Nat.eq_zero_or_pos R with hR | hR
  · simp [hR]
  have hncol : (M.headD []).length = N := by
    rw [headD_eq_getD_zero]
    exact rect_row_length h hR
  rw [hncol]
  apply List.map_congr_left
  intro i hi
  apply List.map_congr_left
  intro j hj
  rw [foldl_add_eq, zero_add]
  congr 1
  apply List.map_congr_left
  intro e he
  rw [entry_transposeL h hR (List.mem_range.mp he) j]

theorem length_vecAdd (a b : List Int) : (vecAdd a b).length = min a.length b.length := by
  simp [vecAdd]

theorem getD_vecAdd {a b : List Int} {n j : Nat} (hj : j < n)
    (ha : a.length = n) (hb : b.length = n) :
    (vecAdd a b).getD j 0 = a.getD j 0 + b.getD j 0 := by
  have hl : j < (vecAdd a b).length := by
    rw [length_vecAdd, ha, hb]
    omega
  rw [getD_eq_getElem _ hl, getD_eq_getElem a (ha ▸ hj), getD_eq_getElem b (hb ▸ hj)]
  simp [vecAdd]

theorem getD_replicate_zero {n j : Nat} : (List.replicate n (0 : Int)).getD j 0 = 0 := by
  by_cases h : j < n <;>
    simp [List.getD_eq_getElem?_getD, List.getElem?_replicate, h]

theorem foldl_vecAdd_char (P : List (List Int)) (n : Nat) :
    ∀ acc : List Int, acc.length = n → (∀ p ∈ P, p.length = n) →
      P.foldl vecAdd acc =
        (List.range n).map (fun j => acc.getD j 0 + (P.map (fun p => p.getD j 0)).sum) := by
  induction P with
  | nil =>
    intro acc hacc _
    simp only [List.foldl_nil, List.map_nil, List.sum_nil, add_zero]
    conv_lhs => rw [list_eq_mapRange acc 0, hacc]
  | cons p P ih =>
    intro acc hacc hP
    simp only [List.foldl_cons]
    rw [ih (vecAdd acc p)
      (by rw [length_vecAdd, hacc, hP p (by simp)]; omega)
      (fun q hq => hP q (List.mem_cons_of_mem _ hq))]
    apply List.map_congr_left
    intro j hj
    rw [getD_vecAdd (List.mem_range.mp hj) hacc (hP p (by simp))]
    simp [add_assoc]

theorem sumAxis0_char (P : List (List Int)) (n : Nat) (hP : ∀ p ∈ P, p.length = n) :
    sumAxis0 P n = (List.range n).map (fun j => (P.map (fun p => p.getD j 0)).sum) := by
  rw [sumAxis0, foldl_vecAdd_char P n _ (by simp) hP]
  apply List.map_congr_left
  intro j _
  rw [getD_replicate_zero, zero_add]

theorem my_func_bcast_eq_gramSpec {M : List (List Int)} {R N : Nat} (h : Rect M R N) :
    my_func_bcast M = gramSpec M R N := by
  simp only [my_func_bcast, gramSpec, h.1]
  rcases Nat.eq_zero_or_pos R with hR | hR
  · simp [hR]
  have hM : M ≠ [] := by
    intro hnil
    rw [hnil] at h
    simp [Rect] at h
    omega
  apply List.map_congr_left
  intro i hi
  have hi' : i < R := List.mem_range.mp hi
  have hprod : bcastProd M i =
      (List.range N).map (fun k => M.map (fun row => entry M i k * row.getD k 0)) := by
    rw [bcastProd, transposeL_char M N hM h.2, rect_row_eq h hi', zipWith_mapRange]
    apply List.map_congr_left
    intro k _
    rw [List.map_map]
    rfl
  rw [hprod, sumAxis0_char _ R (by
    intro p hp
    rcases List.mem_map.mp hp with ⟨k, _, hk⟩
    rw [← hk, List.length_map, h.1])]
  apply List.map_congr_left
  intro j hj
  have hj' : j < R := List.mem_range.mp hj
  rw [List.map_map]
  congr 1
  apply List.map_congr_left
  intro k _
  show (M.map (fun row => entry M i k * row.getD k 0)).getD j 0 = entry M i k * entry M j k
  rw [getD_map_lt _ (h.1 ▸ hj') 0 []]
  rfl

/-! ### Structure of the specified matrix -/

theorem gramSpec_length (M : List (List Int)) (R N : Nat) : (gramSpec M R N).length = R := by
  simp [gramSpec]

theorem gramSpec_row_length (M : List (List Int)) (R N : Nat) :
    ∀ row ∈ gramSpec M R N, row.length = R := by
  intro row hrow
  rcases List.mem_map.mp hrow with ⟨i, _, hi⟩
  simp [← hi]

theorem entry_gramSpec_lt {M : List (List Int)} {R N i j : Nat} (hi : i < R) (hj : j < R) :
    entry (gramSpec M R N) i j =
      ((List.range N).map (fun k => entry M i k * entry M j k)).sum := by
  rw [entry, gramSpec, mapRange_getD hi, mapRange_getD hj]

theorem entry_gramSpec_oob {M : List (List Int)} {R N i j : Nat} (h : ¬(i < R ∧ j < R)) :
    entry (gramSpec M R N) i j = 0 := by
  by_cases hi : i < R
  · have hj : R ≤ j := Nat.le_of_not_lt (fun hj => h ⟨hi, hj⟩)
    rw [entry, gramSpec, mapRange_getD hi]
    apply getD_oob
    simpa using hj
  · rw [entry, @getD_oob _ (gramSpec M R N) i
      (by rw [gramSpec_length]; exact Nat.le_of_not_lt hi)]
    simp [List.getD]

theorem gramSpec_symm (M : List (List Int)) (R N : Nat) (i j : Nat) :
    entry (gramSpec M R N) i j = entry (gramSpec M R N) j i := by
  by_cases hij : i < R ∧ j < R
  · rw [entry_gramSpec_lt hij.1 hij.2, entry_gramSpec_lt hij.2 hij.1]
    congr 1
    apply List.map_congr_left
    intro k _
    exact mul_comm _ _
  · rw [entry_gramSpec_oob hij, entry_gramSpec_oob (fun hc => hij ⟨hc.2, hc.1⟩)]

theorem entry_nonneg {M : List (List Int)} (hnn : ∀ row ∈ M, ∀ x ∈ row, 0 ≤ x)
    (i k : Nat) : 0 ≤ entry M i k := by
  rw [entry]
  by_cases hi : i < M.length
  · rw [getD_eq_getElem M hi]
    by_cases hk : k < M[i].length
    · rw [getD_eq_getElem _ hk]
      exact hnn _ (M.getElem_mem hi) _ (List.getElem_mem hk)
    · rw [getD_oob (Nat.le_of_not_lt hk)]
  · rw [getD_oob (Nat.le_of_not_lt hi)]
    simp [List.getD]

theorem gramSpec_nonneg {M : List (List Int)} (R N : Nat)
    (hnn : ∀ row ∈ M, ∀ x ∈ row, 0 ≤ x) (i j : Nat) :
    0 ≤ entry (gramSpec M R N) i j := by
  by_cases hij : i < R ∧ j < R
  · rw [entry_gramSpec_lt hij.1 hij.2]
    apply List.sum_nonneg
    intro x hx
    rcases List.mem_map.mp hx with ⟨k, _, hk⟩
    rw [← hk]
    exact mul_nonneg (entry_nonneg hnn i k) (entry_nonneg hnn j k)
  · rw [entry_gramSpec_oob hij]

/-- Helper: membership form of the four equalities above. -/
theorem variantMem_eq_gramSpec {M : List (List Int)} {R N : Nat} (h : Rect M R N) :
    ∀ F ∈ [my_func_print M, my_func_mprof M, my_func_bcast M, my_func_dot M],
      F = gramSpec M R N := by
  intro F hF
  simp only [List.mem_cons, List.mem_singleton, List.not_mem_nil, or_false] at hF
  rcases hF with rfl | rfl | rfl | rfl
  · exact my_func_print_eq_gramSpec h
  · exact my_func_mprof_eq_gramSpec h
  · exact my_func_bcast_eq_gramSpec h
  · exact my_func_dot_eq_gramSpec h

instance decRect (M : List (List Int)) (R N : Nat) : Decidable (Rect M R N) :=
  decidable_of_iff (M.length = R ∧ ∀ row ∈ M, row.length = N) Iff.rfl

/-! ### Claim C1 -/

/-- C1: for every well-formed R×N integer matrix, each of the four `my_func`
variants returns the R×R matrix whose entry (i, j) is `Σ_k M[i][k] * M[j][k]`,
i.e. the matrix product of M with its own transpose as the spec describes it
(`gramSpec`). -/
theorem C1_variants_compute_self_dot {M : List (List Int)} {R N : Nat} (h : Rect M R N) :
    my_func_print M = gramSpec M R N ∧ my_func_mprof M = gramSpec M R N ∧
      my_func_bcast M = gramSpec M R N ∧ my_func_dot M = gramSpec M R N :=
  ⟨my_func_print_eq_gramSpec h, my_func_mprof_eq_gramSpec h,
    my_func_bcast_eq_gramSpec h, my_func_dot_eq_gramSpec h⟩

/-- Witness for C1 at the concrete 2×2 matrix [[1, 2], [3, 4]]. -/
theorem C1_witness :
    Rect [[1, 2], [3, 4]] 2 2 ∧
      (my_func_print [[1, 2], [3, 4]] = gramSpec [[1, 2], [3, 4]] 2 2 ∧
        my_func_mprof [[1, 2], [3, 4]] = gramSpec [[1, 2], [3, 4]] 2 2 ∧
        my_func_bcast [[1, 2], [3, 4]] = gramSpec [[1, 2], [3, 4]] 2 2 ∧
        my_func_dot [[1, 2], [3, 4]] = gramSpec [[1, 2], [3, 4]] 2 2) :=
  ⟨by decide, C1_variants_compute_self_dot (by decide)⟩

/-! ### Claim C2 -/

/-- C2: on every well-formed input the three optimization strategies (naive
triple loop, broadcast reduction, direct matrix multiply) agree element-wise. -/
theorem C2_strategies_agree {M : List (List Int)} {R N : Nat} (h : Rect M R N) :
    my_func_mprof M = my_func_bcast M ∧ my_func_bcast M = my_func_dot M :=
  ⟨by rw [my_func_mprof_eq_gramSpec h, my_func_bcast_eq_gramSpec h],
    by rw [my_func_bcast_eq_gramSpec h, my_func_dot_eq_gramSpec h]⟩

/-- Witness for C2 at the concrete 2×3 matrix [[0, 1, 2], [3, 4, 5]]. -/
theorem C2_witness :
    Rect [[0, 1, 2], [3, 4, 5]] 2 3 ∧
      (my_func_mprof [[0, 1, 2], [3, 4, 5]] = my_func_bcast [[0, 1, 2], [3, 4, 5]] ∧
        my_func_bcast [[0, 1, 2], [3, 4, 5]] = my_func_dot [[0, 1, 2], [3, 4, 5]]) :=
  ⟨by decide, @C2_strategies_agree [[0, 1, 2], [3, 4, 5]] 2 3 (by decide)⟩

/-! ### Claim C3 -/

/-- C3: on every well-formed matrix of non-negative integers, each strategy's
result is square (R×R), symmetric, and has non-negative entries. -/
theorem C3_square_symmetric_nonneg {M : List (List Int)} {R N : Nat} (h : Rect M R N)
    (hnn : ∀ row ∈ M, ∀ x ∈ row, 0 ≤ x) :
    ∀ F ∈ [my_func_print M, my_func_mprof M, my_func_bcast M, my_func_dot M],
      F.length = R ∧ (∀ row ∈ F, row.length = R) ∧
        (∀ i j, entry F i j = entry F j i) ∧ (∀ i j, 0 ≤ entry F i j) := by
  intro F hF
  have hgram : F = gramSpec M R N := variantMem_eq_gramSpec h F hF
  subst hgram
  exact ⟨gramSpec_length M R N, gramSpec_row_length M R N,
    gramSpec_symm M R N, gramSpec_nonneg R N hnn⟩

/-- Witness for C3 at the concrete non-negative 2×2 matrix [[2, 0], [1, 5]]. -/
theorem C3_witness :
    Rect [[2, 0], [1, 5]] 2 2 ∧ (∀ row ∈ [[2, 0], [1, 5]], ∀ x ∈ row, (0:Int) ≤ x) ∧
      (∀ F ∈ [my_func_print [[2, 0], [1, 5]], my_func_mprof [[2, 0], [1, 5]],
              my_func_bcast [[2, 0], [1, 5]], my_func_dot [[2, 0], [1, 5]]],
        F.length = 2 ∧ (∀ row ∈ F, row.length = 2) ∧
          (∀ i j, entry F i j = entry F j i) ∧ (∀ i j, 0 ≤ entry F i j)) :=
  ⟨by decide, by decide,
    @C3_square_symmetric_nonneg [[2, 0], [1, 5]] 2 2 (by decide) (by decide)⟩

/-! ### Claim C7

The spec postulates an InvalidInput error for empty or ragged inputs.  The
code has no such error: a ragged grid cannot even reach `my_func` (every
ndarray is rectangular by construction), and on an empty matrix every
variant runs its loops zero times and returns an empty (or all-zero) result
instead of failing.  The counterexample shows the empty-input behaviour;
the amended claim is that every variant totally returns an R×R value on
every well-formed input, with no error path at all. -/

/-- Counterexample to C7 as stated: on the empty matrix (and on a 2×0
matrix) every strategy returns a value - the 0×0 (resp. 2×2 zero) result
matrix - rather than failing with an InvalidInput error. -/
theorem C7_counterexample :
    my_func_print ([] : List (List Int)) = [] ∧
      my_func_mprof ([] : List (List Int)) = [] ∧
      my_func_bcast ([] : List (List Int)) = [] ∧
      my_func_dot ([] : List (List Int)) = [] ∧
      my_func_mprof [([] : List Int), []] = [[0, 0], [0, 0]] ∧
      my_func_bcast [([] : List Int), []] = [[0, 0], [0, 0]] := by
  decide

/-- C7 amended: the computer has no error condition at all.  Every strategy
is total on well-formed (rectangular) inputs - the only inputs an ndarray
can be - including the empty ones, and always returns an R×R matrix. -/
theorem C7_total_no_error {M : List (List Int)} {R N : Nat} (h : Rect M R N) :
    ∀ F ∈ [my_func_print M, my_func_mprof M, my_func_bcast M, my_func_dot M],
      F.length = R ∧ ∀ row ∈ F, row.length = R := by
  intro F hF
  rw [variantMem_eq_gramSpec h F hF]
  exact ⟨gramSpec_length M R N, gramSpec_row_length M R N⟩

/-- Witness for C7 at the empty 0×0 matrix. -/
theorem C7_witness :
    Rect ([] : List (List Int)) 0 0 ∧
      (∀ F ∈ [my_func_print ([] : List (List Int)), my_func_mprof [], my_func_bcast [],
              my_func_dot []],
        F.length = 0 ∧ ∀ row ∈ F, row.length = 0) :=
  ⟨by decide, @C7_total_no_error [] 0 0 (by decide)⟩

/-! ### Claim C8 -/

theorem gramSpec_zero_cols (M : List (List Int)) (R : Nat) :
    gramSpec M R 0 = List.replicate R (List.replicate R 0) := by
  rw [List.eq_replicate_iff]
  refine ⟨by simp [gramSpec], ?_⟩
  intro row hrow
  rcases List.mem_map.mp hrow with ⟨i, _, hi⟩
  rw [← hi, List.eq_replicate_iff]
  exact ⟨by simp, by intro b hb; rcases List.mem_map.mp hb with ⟨j, _, hj⟩; simpa using hj.symm⟩

/-- C8: on an input with R rows and zero columns, every strategy returns the
R×R all-zero matrix (the implemented boundary policy; no InvalidDimension
error exists on this path). -/
theorem C8_zero_columns_give_zero_matrix (R : Nat) :
    ∀ F ∈ [my_func_print (List.replicate R []), my_func_mprof (List.replicate R []),
           my_func_bcast (List.replicate R []), my_func_dot (List.replicate R [])],
      F = List.replicate R (List.replicate R 0) := by
  have hrect : Rect (List.replicate R []) R 0 := by
    refine ⟨by simp, ?_⟩
    intro row hrow
    rw [List.eq_of_mem_replicate hrow]
    rfl
  intro F hF
  rw [variantMem_eq_gramSpec hrect F hF, gramSpec_zero_cols]

/-- Witness for C8 at R = 2: the direct-multiply strategy on a 2×0 input
returns the 2×2 zero matrix. -/
theorem C8_witness :
    my_func_dot (List.replicate 2 ([] : List Int))
      = List.replicate 2 (List.replicate 2 0) :=
  C8_zero_columns_give_zero_matrix 2 (my_func_dot (List.replicate 2 [])) (by decide)

/-! ### Buffer-fill lemmas

The assignment loops above are reduced to closed maps: a loop that writes
every cell of a row (or every row of a buffer) exactly once, reading only
cells it has not yet written, produces the grid of written values. -/

theorem set_getD_self {α : Type} (l : List α) {i : Nat} (h : i < l.length) (d : α) :
    l.set i (l.getD i d) = l := by
  rw [getD_eq_getElem l h d]
  apply List.ext_getElem (by simp)
  intro j h1 h2
  by_cases hij : i = j
  · subst hij
    simp
  · rw [List.getElem_set_ne hij]

theorem getD_set_self {α : Type} (l : List α) {i : Nat} (h : i < l.length) (v d : α) :
    (l.set i v).getD i d = v := by
  rw [List.getD_eq_getElem?_getD, List.getElem?_set_eq_of_lt v h]
  rfl

theorem foldl_set_range1D {α : Type} (g : Nat → α → α) (d : α) :
    ∀ (n : Nat) (row : List α), n ≤ row.length →
      (List.range n).foldl (fun r c => r.set c (g c (r.getD c d))) row
        = (List.range n).map (fun c => g c (row.getD c d)) ++ row.drop n := by
  intro n
  induction n with
  | zero => intro row _; simp
  | succ n ih =>
    intro row h
    have hn : n < row.length := h
    rw [List.range_succ, List.foldl_append, ih row (Nat.le_of_succ_le h)]
    simp only [List.foldl_cons, List.foldl_nil]
    have hlen : ((List.range n).map (fun c => g c (row.getD c d))).length = n := by simp
    have hgetD : ((List.range n).map (fun c => g c (row.getD c d)) ++ row.drop n).getD n d
        = row.getD n d := by
      rw [List.getD_append_right _ _ _ _ (le_of_eq hlen), hlen, Nat.sub_self,
        List.drop_eq_getElem_cons hn]
      rw [getD_eq_getElem row hn d]
      rfl
    rw [hgetD]
    have hset : ((List.range n).map (fun c => g c (row.getD c d)) ++ row.drop n).set n
          (g n (row.getD n d))
        = (List.range n).map (fun c => g c (row.getD c d)) ++ [g n (row.getD n d)]
            ++ row.drop (n+1) := by
      rw [List.set_append_right _ _ (le_of_eq hlen), hlen, Nat.sub_self,
        List.drop_eq_getElem_cons hn]
      simp [List.set]
    rw [hset, List.map_append]
    simp [List.append_assoc]

theorem foldl_set_full1D {α : Type} (g : Nat → α → α) (d : α) (n : Nat) (row : List α)
    (h : row.length = n) :
    (List.range n).foldl (fun r c => r.set c (g c (r.getD c d))) row
      = (List.range n).map (fun c => g c (row.getD c d)) := by
  rw [foldl_set_range1D g d n row (le_of_eq h.symm), ← h, List.drop_length,
    List.append_nil]

theorem length_writeCell {α : Type} (B : List (List α)) (r c : Nat) (v : α) :
    (writeCell B r c v).length = B.length := by
  simp [writeCell]

theorem foldl_writeCell_row {α : Type} (g : Nat → α → α) (d : α) (cs : List Nat) :
    ∀ (B : List (List α)) (r : Nat), r < B.length →
      cs.foldl (fun B c => writeCell B r c (g c (getCell B r c d))) B
        = B.set r (cs.foldl (fun row c => row.set c (g c (row.getD c d))) (B.getD r [])) := by
  induction cs with
  | nil =>
    intro B r hr
    exact (set_getD_self B hr []).symm
  | cons c cs ih =>
    intro B r hr
    simp only [List.foldl_cons]
    rw [ih _ r (by rw [length_writeCell]; exact hr)]
    have hrow : (writeCell B r c (g c (getCell B r c d))).getD r []
        = (B.getD r []).set c (g c ((B.getD r []).getD c d)) := by
      rw [writeCell, getD_set_self B hr]
      rfl
    rw [hrow, writeCell, List.set_set]

theorem getCell_writeCell_self {B : List (List Int)} {r c : Nat}
    (hr : r < B.length) (hc : c < (B.getD r []).length) (v : Int) :
    getCell (writeCell B r c v) r c 0 = v := by
  rw [getCell, writeCell, getD_set_self B hr, getD_set_self _ hc]

theorem foldl_writeCell_accum (t : Nat → Int) (es : List Nat) :
    ∀ (B : List (List Int)) (r c : Nat), r < B.length → c < (B.getD r []).length →
      es.foldl (fun B e => writeCell B r c (getCell B r c 0 + t e)) B
        = writeCell B r c (getCell B r c 0 + (es.map t).sum) := by
  induction es with
  | nil =>
    intro B r c hr hc
    simp only [List.foldl_nil, List.map_nil, List.sum_nil, add_zero]
    rw [writeCell, getCell, set_getD_self _ hc, set_getD_self B hr]
  | cons e es ih =>
    intro B r c hr hc
    simp only [List.foldl_cons]
    rw [ih _ r c (by rw [length_writeCell]; exact hr)
      (by rw [writeCell, getD_set_self B hr]; simpa using hc)]
    rw [getCell_writeCell_self hr hc]
    have hcollapse : ∀ v w : Int, writeCell (writeCell B r c v) r c w = writeCell B r c w := by
      intro v w
      rw [writeCell, writeCell, writeCell, getD_set_self B hr, List.set_set, List.set_set]
    rw [hcollapse]
    simp [add_assoc]

/-- Shape invariant of an `n × n` buffer. -/
def ShapeN {α : Type} (n : Nat) (B : List (List α)) : Prop :=
  B.length = n ∧ ∀ row ∈ B, row.length = n

theorem shapeN_writeCell {α : Type} {n : Nat} {B : List (List α)} (h : ShapeN n B)
    {r : Nat} (hr : r < n) (c : Nat) (v : α) : ShapeN n (writeCell B r c v) := by
  refine ⟨by rw [length_writeCell, h.1], ?_⟩
  intro row hrow
  rcases List.mem_or_eq_of_mem_set hrow with hmem | heq
  · exact h.2 row hmem
  · rw [heq, List.length_set]
    have hrB : r < B.length := h.1 ▸ hr
    rw [getD_eq_getElem B hrB]
    exact h.2 _ (B.getElem_mem hrB)

theorem foldl_congr_inv {β γ : Type} (Inv : β → Prop) (cs : List γ) :
    ∀ (B : β) (s1 s2 : β → γ → β), Inv B →
      (∀ B c, Inv B → c ∈ cs → s1 B c = s2 B c) →
      (∀ B c, Inv B → Inv (s2 B c)) →
      cs.foldl s1 B = cs.foldl s2 B := by
  induction cs with
  | nil => intros; rfl
  | cons c cs ih =>
    intro B s1 s2 hB h12 hpres
    simp only [List.foldl_cons]
    rw [h12 B c hB (by simp)]
    exact ih _ s1 s2 (hpres B c hB) (fun B c hB hc => h12 B c hB (by simp [hc]))
      hpres

theorem fill2D_abstract {α : Type} (g : Nat → Nat → α → α) (d : α) (n : Nat)
    (step : List (List α) → Nat → List (List α))
    (hstep : ∀ B r, ShapeN n B → r < n →
      step B r = B.set r ((List.range n).map (fun c => g r c (getCell B r c d)))) :
    ∀ k, k ≤ n → ∀ B, ShapeN n B →
      (List.range k).foldl step B
        = (List.range k).map (fun r => (List.range n).map (fun c => g r c (getCell B r c d)))
            ++ B.drop k := by
  intro k
  induction k with
  | zero => intro _ B _; simp
  | succ k ih =>
    intro hk B hB
    have hkn : k < n := hk
    have hkB : k < B.length := hB.1 ▸ hkn
    rw [List.range_succ, List.foldl_append, ih (Nat.le_of_succ_le hk) B hB]
    simp only [List.foldl_cons, List.foldl_nil]
    have hlen : ((List.range k).map
        (fun r => (List.range n).map (fun c => g r c (getCell B r c d)))).length = k := by
      simp
    have hA : ShapeN n ((List.range k).map
        (fun r => (List.range n).map (fun c => g r c (getCell B r c d))) ++ B.drop k) := by
      constructor
      · rw [List.length_append, hlen, List.length_drop, hB.1]
        omega
      · intro row hrow
        rcases List.mem_append.mp hrow with hm | hm
        · rcases List.mem_map.mp hm with ⟨r, _, hr⟩
          rw [← hr]
          simp
        · exact hB.2 row (List.mem_of_mem_drop hm)
    rw [hstep _ k hA hkn]
    have hrowA : ((List.range k).map
          (fun r => (List.range n).map (fun c => g r c (getCell B r c d)))
          ++ B.drop k).getD k [] = B.getD k [] := by
      rw [List.getD_append_right _ _ _ _ (le_of_eq hlen), hlen, Nat.sub_self,
        List.drop_eq_getElem_cons hkB]
      rw [getD_eq_getElem B hkB]
      rfl
    have hcells : ∀ c : Nat, getCell ((List.range k).map
          (fun r => (List.range n).map (fun c => g r c (getCell B r c d)))
          ++ B.drop k) k c d = getCell B k c d := by
      intro c
      rw [getCell, getCell, hrowA]
    have hmap : (List.range n).map (fun c => g k c (getCell ((List.range k).map
          (fun r => (List.range n).map (fun c => g r c (getCell B r c d))) ++ B.drop k) k c d))
        = (List.range n).map (fun c => g k c (getCell B k c d)) :=
      List.map_congr_left (fun c _ => by rw [hcells c])
    rw [hmap]
    have hset : ((List.range k).map
          (fun r => (List.range n).map (fun c => g r c (getCell B r c d)))
          ++ B.drop k).set k ((List.range n).map (fun c => g k c (getCell B k c d)))
        = (List.range k).map (fun r => (List.range n).map (fun c => g r c (getCell B r c d)))
            ++ [(List.range n).map (fun c => g k c (getCell B k c d))] ++ B.drop (k+1) := by
      rw [List.set_append_right _ _ (le_of_eq hlen), hlen, Nat.sub_self,
        List.drop_eq_getElem_cons hkB]
      simp [List.set, List.append_assoc]
    rw [hset, List.map_append]
    simp [List.append_assoc]

/-- Projection of an `NpRun` fold: a loop whose every step keeps the input
component and updates the result from the (constant) input. -/
theorem npRun_foldl {α β : Type} (l : List β) (M : List (List Int))
    (F : List (List Int) → List (List α) → β → List (List α))
    (step : NpRun α → β → NpRun α)
    (h : ∀ st c, step st c = ⟨st.inp, F st.inp st.res c⟩) :
    ∀ res, l.foldl step ⟨M, res⟩ = ⟨M, l.foldl (F M) res⟩ := by
  induction l with
  | nil => intro res; rfl
  | cons c l ih =>
    intro res
    rw [List.foldl_cons, h, List.foldl_cons]
    exact ih _

theorem shapeN_replicate {α : Type} (n : Nat) (v : α) :
    ShapeN n (List.replicate n (List.replicate n v)) :=
  ⟨by simp, fun row hrow => by rw [List.eq_of_mem_replicate hrow]; simp⟩

theorem getCell_replicate {α : Type} (n r c : Nat) (v d : α) (hr : r < n) :
    getCell (List.replicate n (List.replicate n v)) r c d = if c < n then v else d := by
  rw [getCell]
  have h1 : (List.replicate n (List.replicate n v)).getD r [] = List.replicate n v := by
    rw [getD_eq_getElem _ (by simpa using hr), List.getElem_replicate]
  rw [h1]
  by_cases hc : c < n
  · rw [getD_eq_getElem _ (by simpa using hc), List.getElem_replicate, if_pos hc]
  · rw [getD_oob (by simpa using Nat.le_of_not_lt hc), if_neg hc]

/-! ### Characterization of the three write-by-write runs -/

theorem foldl_set_full1D_const {α : Type} (f : Nat → α) (d : α) (n : Nat) (row : List α)
    (h : row.length = n) :
    (List.range n).foldl (fun r c => r.set c (f c)) row = (List.range n).map f :=
  foldl_set_full1D (fun c _ => f c) d n row h

theorem myFuncPrintRun_eq (M : List (List Int)) :
    myFuncPrintRun M = ⟨M, (my_func_print M).map (fun row => row.map some)⟩ := by
  simp only [myFuncPrintRun]
  have hinner : ∀ (I : List (List Int)) (res : List (List (Option Int))) (r : Nat),
      (List.range M.length).foldl (fun st c =>
        ⟨st.inp, writeCell st.res r c
          (some (npSum (rowMul (st.inp.getD r []) (col (transposeL st.inp) c))))⟩)
        (⟨I, res⟩ : NpRun (Option Int))
      = ⟨I, (List.range M.length).foldl (fun res c => writeCell res r c
          (some (npSum (rowMul (I.getD r []) (col (transposeL I) c))))) res⟩ :=
    fun I res r => npRun_foldl _ I
      (fun I res c => writeCell res r c
        (some (npSum (rowMul (I.getD r []) (col (transposeL I) c))))) _
      (fun st c => rfl) res
  rw [npRun_foldl _ M
    (fun I res r => (List.range M.length).foldl (fun res c => writeCell res r c
      (some (npSum (rowMul (I.getD r []) (col (transposeL I) c))))) res) _
    (fun st r => hinner st.inp st.res r)]
  congr 1
  have hstep : ∀ (B : List (List (Option Int))) (r : Nat), ShapeN M.length B →
      r < M.length →
      (List.range M.length).foldl (fun B c => writeCell B r c
        (some (npSum (rowMul (M.getD r []) (col (transposeL M) c))))) B
      = B.set r ((List.range M.length).map (fun c =>
          (fun (r c : Nat) (_ : Option Int) =>
            some (npSum (rowMul (M.getD r []) (col (transposeL M) c)))) r c
            (getCell B r c none))) := by
    intro B r hB hr
    rw [foldl_writeCell_row
      (fun c _ => some (npSum (rowMul (M.getD r []) (col (transposeL M) c)))) none
      (List.range M.length) B r (hB.1 ▸ hr)]
    rw [foldl_set_full1D
      (fun c _ => some (npSum (rowMul (M.getD r []) (col (transposeL M) c)))) none
      M.length _ (by
        rw [getD_eq_getElem B (hB.1 ▸ hr)]
        exact hB.2 _ (B.getElem_mem _))]
  rw [fill2D_abstract
    (fun r c _ => some (npSum (rowMul (M.getD r []) (col (transposeL M) c)))) none
    M.length _ hstep M.length (le_refl _) _ (shapeN_replicate M.length none)]
  rw [List.drop_eq_nil_of_le (by simp), List.append_nil, my_func_print]
  simp only [List.map_map]
  apply List.map_congr_left
  intro r _
  simp [List.map_map, Function.comp]

theorem myFuncBcastRun_eq (M : List (List Int)) :
    myFuncBcastRun M = ⟨M, my_func_bcast M⟩ := by
  simp only [myFuncBcastRun]
  rw [npRun_foldl _ M
    (fun I res r => res.set r (sumAxis0 (bcastProd I r) M.length)) _
    (fun st r => rfl)]
  congr 1
  rw [foldl_set_full1D_const (fun r => sumAxis0 (bcastProd M r) M.length) [] M.length _
    (by simp)]
  rfl

theorem myFuncMprofRun_eq (M : List (List Int)) :
    myFuncMprofRun M = ⟨M, my_func_mprof M⟩ := by
  simp only [myFuncMprofRun]
  have hinner2 : ∀ (I : List (List Int)) (res : List (List Int)) (r c : Nat),
      (List.range (M.headD []).length).foldl (fun st e =>
        ⟨st.inp, writeCell st.res r c
          (getCell st.res r c 0 + entry st.inp r e * entry (transposeL st.inp) e c)⟩)
        (⟨I, res⟩ : NpRun Int)
      = ⟨I, (List.range (M.headD []).length).foldl (fun res e => writeCell res r c
          (getCell res r c 0 + entry I r e * entry (transposeL I) e c)) res⟩ :=
    fun I res r c => npRun_foldl _ I
      (fun I res e => writeCell res r c
        (getCell res r c 0 + entry I r e * entry (transposeL I) e c)) _
      (fun st e => rfl) res
  have hinner : ∀ (I : List (List Int)) (res : List (List Int)) (r : Nat),
      (List.range M.length).foldl (fun st c =>
        (List.range (M.headD []).length).foldl (fun st e =>
          ⟨st.inp, writeCell st.res r c
            (getCell st.res r c 0 + entry st.inp r e * entry (transposeL st.inp) e c)⟩) st)
        (⟨I, res⟩ : NpRun Int)
      = ⟨I, (List.range M.length).foldl (fun res c =>
          (List.range (M.headD []).length).foldl (fun res e => writeCell res r c
            (getCell res r c 0 + entry I r e * entry (transposeL I) e c)) res) res⟩ :=
    fun I res r => npRun_foldl _ I
      (fun I res c => (List.range (M.headD []).length).foldl (fun res e =>
        writeCell res r c
          (getCell res r c 0 + entry I r e * entry (transposeL I) e c)) res) _
      (fun st c => hinner2 st.inp st.res r c) res
  rw [npRun_foldl _ M
    (fun I res r => (List.range M.length).foldl (fun res c =>
      (List.range (M.headD []).length).foldl (fun res e => writeCell res r c
        (getCell res r c 0 + entry I r e * entry (transposeL I) e c)) res) res) _
    (fun st r => hinner st.inp st.res r)]
  congr 1
  have hstep : ∀ (B : List (List Int)) (r : Nat), ShapeN M.length B → r < M.length →
      (List.range M.length).foldl (fun B c =>
        (List.range (M.headD []).length).foldl (fun B e => writeCell B r c
          (getCell B r c 0 + entry M r e * entry (transposeL M) e c)) B) B
      = B.set r ((List.range M.length).map (fun c =>
          (fun (r c : Nat) (v : Int) =>
            v + ((List.range (M.headD []).length).map (fun e =>
              entry M r e * entry (transposeL M) e c)).sum) r c (getCell B r c 0))) := by
    intro B r hB hr
    rw [foldl_congr_inv (ShapeN M.length) (List.range M.length) B _
      (fun B c => writeCell B r c (getCell B r c 0 +
        ((List.range (M.headD []).length).map (fun e =>
          entry M r e * entry (transposeL M) e c)).sum))
      hB
      (fun B c hBc hcmem =>
        foldl_writeCell_accum (fun e => entry M r e * entry (transposeL M) e c)
          (List.range (M.headD []).length) B r c (hBc.1 ▸ hr)
          (by
            rw [getD_eq_getElem B (hBc.1 ▸ hr)]
            rw [hBc.2 _ (B.getElem_mem _)]
            exact List.mem_range.mp hcmem))
      (fun B c hBc => shapeN_writeCell hBc hr c _)]
    rw [foldl_writeCell_row
      (fun c v => v + ((List.range (M.headD []).length).map (fun e =>
        entry M r e * entry (transposeL M) e c)).sum) 0
      (List.range M.length) B r (hB.1 ▸ hr)]
    rw [foldl_set_full1D
      (fun c v => v + ((List.range (M.headD []).length).map (fun e =>
        entry M r e * entry (transposeL M) e c)).sum) 0
      M.length _ (by
        rw [getD_eq_getElem B (hB.1 ▸ hr)]
        exact hB.2 _ (B.getElem_mem _))]
    rfl
  rw [fill2D_abstract
    (fun r c v => v + ((List.range (M.headD []).length).map (fun e =>
      entry M r e * entry (transposeL M) e c)).sum) 0
    M.length _ hstep M.length (le_refl _) _ (shapeN_replicate M.length 0)]
  rw [List.drop_eq_nil_of_le (by simp), List.append_nil, my_func_mprof]
  apply List.map_congr_left
  intro r hr
  apply List.map_congr_left
  intro c _
  show getCell (List.replicate M.length (List.replicate M.length 0)) r c 0 + _ = _
  rw [getCell_replicate M.length r c 0 0 (List.mem_range.mp hr)]
  rw [foldl_add_eq]
  by_cases hc : c < M.length <;> simp [hc]

/-! ### Claim C9 -/

/-- C9: the write-by-write runs of the looping strategies never write to the
input array - after the run the threaded input component is exactly the
original matrix - and the result buffer, freshly allocated as
`np.zeros`/`np.empty` at call entry and written only through `result[...]`
assignments, ends up holding exactly the pure function of the input (so it
shares no state with the input).  The direct-multiply strategy performs no
indexed writes at all. -/
theorem C9_input_unchanged_result_fresh (M : List (List Int)) :
    ((myFuncPrintRun M).inp = M ∧ (myFuncMprofRun M).inp = M ∧
        (myFuncBcastRun M).inp = M) ∧
      ((myFuncPrintRun M).res = (my_func_print M).map (fun row => row.map some) ∧
        (myFuncMprofRun M).res = my_func_mprof M ∧
        (myFuncBcastRun M).res = my_func_bcast M) := by
  rw [myFuncPrintRun_eq, myFuncMprofRun_eq, myFuncBcastRun_eq]
  exact ⟨⟨rfl, rfl, rfl⟩, rfl, rfl, rfl⟩

/-! ### Claim C10 -/

/-- C10: in the printing variant the `np.empty((nrow, nrow))` buffer starts
with every cell uninitialised (`none`), but the two nested loops assign
every cell (rix, cix) with rix, cix < nrow before returning: the final
buffer is `some` everywhere, holding exactly the values `my_func_print`
computes, so no uninitialised value is observable. -/
theorem C10_empty_buffer_fully_written (M : List (List Int)) :
    (∀ row ∈ (myFuncPrintRun M).res, ∀ cell ∈ row, cell.isSome = true) ∧
      (myFuncPrintRun M).res = (my_func_print M).map (fun row => row.map some) := by
  rw [myFuncPrintRun_eq]
  refine ⟨?_, rfl⟩
  intro row hrow cell hcell
  rcases List.mem_map.mp hrow with ⟨prow, _, hp⟩
  rw [← hp] at hcell
  rcases List.mem_map.mp hcell with ⟨v, _, hv⟩
  rw [← hv]
  rfl

/-! ### Bounds and shape of the generated matrix -/

/-- Invariant of the buffered 32-bit source: a stashed half-word fits in
32 bits. -/
def Gen32Wf (g : Gen32) : Prop := ∀ v, g.buf = some v → v < 2^32

theorem pcgOutput_lt (s : Nat) : pcgOutput s < 2^64 := by
  apply Nat.mod_lt
  norm_num

theorem next32_bound {g : Gen32} (h : Gen32Wf g) :
    (next32 g).1 < 2^32 ∧ Gen32Wf (next32 g).2 := by
  rw [next32]
  cases hb : g.buf with
  | some v =>
    refine ⟨h v hb, ?_⟩
    intro w hw
    simp at hw
  | none =>
    simp only [pcgNext64]
    constructor
    · exact Nat.mod_lt _ (by norm_num)
    · intro w hw
      simp only [Option.some.injEq] at hw
      rw [← hw]
      have := pcgOutput_lt (pcgStep g.pcg).state
      omega

theorem lemireWhile_bound (rngExcl threshold : Nat) :
    ∀ (fuel m : Nat) (g : Gen32), Gen32Wf g → m < 2^32 * rngExcl →
      ∀ d g', lemireWhile rngExcl threshold fuel m g = some (d, g') →
        d < rngExcl ∧ Gen32Wf g' := by
  intro fuel
  induction fuel with
  | zero =>
    intro m g hg hm d g' heq
    rw [lemireWhile] at heq
    by_cases hc : m % 2^32 ≥ threshold
    · rw [if_pos hc] at heq
      simp only [Option.some.injEq, Prod.mk.injEq] at heq
      refine ⟨?_, heq.2 ▸ hg⟩
      rw [← heq.1, Nat.shiftRight_eq_div_pow m 32]
      exact Nat.div_lt_of_lt_mul (by omega)
    · rw [if_neg hc] at heq
      exact absurd heq (by simp)
  | succ f ih =>
    intro m g hg hm d g' heq
    rw [lemireWhile] at heq
    by_cases hc : m % 2^32 ≥ threshold
    · rw [if_pos hc] at heq
      simp only [Option.some.injEq, Prod.mk.injEq] at heq
      refine ⟨?_, heq.2 ▸ hg⟩
      rw [← heq.1, Nat.shiftRight_eq_div_pow m 32]
      exact Nat.div_lt_of_lt_mul (by omega)
    · rw [if_neg hc] at heq
      have hn := next32_bound hg
      rcases hng : next32 g with ⟨u, g2⟩
      rw [hng] at heq hn
      simp only at heq hn
      have hpos : 0 < rngExcl := by
        rcases Nat.eq_zero_or_pos rngExcl with h0 | hpos
        · subst h0; simp at hm
        · exact hpos
      exact ih _ _ hn.2 (Nat.mul_lt_mul_of_pos_right hn.1 hpos) d g' heq

theorem lemireDraw_bound {rng fuel : Nat} {g : Gen32} (h : Gen32Wf g)
    {d : Nat} {g' : Gen32} (heq : lemireDraw rng fuel g = some (d, g')) :
    d < rng + 1 ∧ Gen32Wf g' := by
  rw [lemireDraw] at heq
  have hn := next32_bound h
  rcases hng : next32 g with ⟨u, g2⟩
  rw [hng] at heq hn
  simp only at heq hn
  have hm : u * (rng + 1) < 2^32 * (rng + 1) :=
    Nat.mul_lt_mul_of_pos_right hn.1 (by omega)
  by_cases hc : u * (rng + 1) % 2^32 < rng + 1
  · rw [if_pos hc] at heq
    exact lemireWhile_bound (rng + 1) _ fuel _ _ hn.2 hm d g' heq
  · rw [if_neg hc] at heq
    simp only [Option.some.injEq, Prod.mk.injEq] at heq
    refine ⟨?_, heq.2 ▸ hn.2⟩
    rw [← heq.1, Nat.shiftRight_eq_div_pow]
    exact Nat.div_lt_of_lt_mul (by omega)

theorem drawList_bound {rng fuel : Nat} :
    ∀ (c : Nat) (g : Gen32), Gen32Wf g →
      ∀ ds g', drawList rng fuel c g = some (ds, g') →
        (∀ d ∈ ds, d < rng + 1) ∧ ds.length = c ∧ Gen32Wf g' := by
  intro c
  induction c with
  | zero =>
    intro g hg ds g' heq
    rw [drawList] at heq
    simp only [Option.some.injEq, Prod.mk.injEq] at heq
    rw [← heq.1]
    exact ⟨by simp, rfl, heq.2 ▸ hg⟩
  | succ c ih =>
    intro g hg ds g' heq
    rw [drawList] at heq
    cases h1 : lemireDraw rng fuel g with
    | none => rw [h1] at heq; exact absurd heq (by simp)
    | some p =>
      rw [h1] at heq
      obtain ⟨d1, g1⟩ := p
      simp only at heq
      have hb1 := lemireDraw_bound hg h1
      cases h2 : drawList rng fuel c g1 with
      | none => rw [h2] at heq; exact absurd heq (by simp)
      | some q =>
        rw [h2] at heq
        obtain ⟨ds2, g2⟩ := q
        have hb2 := ih g1 hb1.2 ds2 g2 h2
        simp only [Option.some.injEq, Prod.mk.injEq] at heq
        rw [← heq.1]
        refine ⟨?_, by simp [hb2.2.1], heq.2 ▸ hb2.2.2⟩
        intro d hd
        rcases List.mem_cons.mp hd with rfl | hd
        · exact hb1.1
        · exact hb2.1 d hd

theorem reshapeRows_shape (numCols : Nat) :
    ∀ (r : Nat) (ds : List Nat), ds.length = r * numCols →
      (reshapeRows r numCols ds).length = r ∧
        (∀ row ∈ reshapeRows r numCols ds, row.length = numCols ∧ ∀ x ∈ row, x ∈ ds) := by
  intro r
  induction r with
  | zero =>
    intro ds _
    exact ⟨rfl, by simp [reshapeRows]⟩
  | succ r ih =>
    intro ds hlen
    have hN : numCols ≤ ds.length := by
      rw [hlen, Nat.succ_mul]
      omega
    have hdrop : (ds.drop numCols).length = r * numCols := by
      rw [List.length_drop, hlen, Nat.succ_mul]
      omega
    have hih := ih (ds.drop numCols) hdrop
    refine ⟨by simp [reshapeRows, hih.1], ?_⟩
    intro row hrow
    rcases List.mem_cons.mp hrow with rfl | hrow
    · exact ⟨by rw [List.length_take]; omega,
        fun x hx => List.mem_of_mem_take hx⟩
    · obtain ⟨h1, h2⟩ := hih.2 row hrow
      exact ⟨h1, fun x hx => List.mem_of_mem_drop (h2 x hx)⟩

/-! ### Claim C5 -/

/-- C5: the generator is a pure deterministic function - two invocations at
the same seed and shape give bit-identical output - and when it succeeds it
yields an R×N matrix with every entry in [0, 10). -/
theorem C5_generator_deterministic_bounded {seed R N fuel : Nat}
    {M : List (List Nat)} (h : npIntegers seed 10 R N fuel = some M) :
    npIntegers seed 10 R N fuel = npIntegers seed 10 R N fuel ∧
      M.length = R ∧ ∀ row ∈ M, row.length = N ∧ ∀ x ∈ row, x < 10 := by
  refine ⟨rfl, ?_⟩
  rw [npIntegers] at h
  cases hdl : drawList 9 fuel (R * N) ⟨pcgSeeded seed, none⟩ with
  | none => rw [hdl] at h; exact absurd h (by simp)
  | some p =>
    rw [hdl] at h
    obtain ⟨ds, g'⟩ := p
    simp only [Option.map_some', Option.some.injEq] at h
    have hwf : Gen32Wf ⟨pcgSeeded seed, none⟩ := fun v hv => by simp at hv
    have hb := drawList_bound (R * N) _ hwf ds g' hdl
    have hsh := reshapeRows_shape N R ds hb.2.1
    rw [← h]
    refine ⟨hsh.1, ?_⟩
    intro row hrow
    obtain ⟨h1, h2⟩ := hsh.2 row hrow
    exact ⟨h1, fun x hx => hb.1 x (h2 x hx)⟩

/-- Witness for C5: seed 8675309 with shape 2×3 generates [[7,3,3],[8,3,6]]. -/
theorem C5_witness :
    npIntegers 8675309 10 2 3 4 = some [[7, 3, 3], [8, 3, 6]] ∧
      (npIntegers 8675309 10 2 3 4 = npIntegers 8675309 10 2 3 4 ∧
        [[7, 3, 3], [8, 3, 6]].length = 2 ∧
        ∀ row ∈ [[7, 3, 3], [8, 3, 6]], row.length = 3 ∧ ∀ x ∈ row, x < 10) :=
  ⟨by rfl, C5_generator_deterministic_bounded (by rfl)⟩

/-! ### Claim C6

The spec says the generator fails with InvalidDimension exactly when a
dimension is non-positive.  numpy in fact accepts zero-sized dimensions
(returning an empty array) and raises only for negative ones; the
counterexample evaluates the generator at N = 0. -/

/-- Counterexample to C6 as stated: at the non-positive column count N = 0
the generator succeeds with the empty 2×0 matrix instead of failing. -/
theorem C6_counterexample :
    defaultRngIntegers 8675309 10 2 0 4 = .ok (some [[], []]) := by rfl

/-- C6 amended: the generator raises InvalidDimension exactly when the row
or column count is negative (zero dimensions succeed with an empty array),
and it has no other error condition. -/
theorem C6_invalid_dimension_iff_negative (seed bound : Nat) (R N : Int) (fuel : Nat) :
    defaultRngIntegers seed bound R N fuel = .error .invalidDimension ↔
      (R < 0 ∨ N < 0) := by
  rw [defaultRngIntegers]
  by_cases h : R < 0 ∨ N < 0 <;> simp [h]

/-! ### Bridging the runners to the draw list

`advanceN` and `gramFold` are tail-shaped reformulations of `drawList`
compositions; the following lemmas state that exactly, so that evaluating
the runners in chunks decides the value of `my_func_dot` on the generated
matrix. -/

theorem dotNat_cons (x y : Nat) (xs ys : List Nat) :
    dotNat (x :: xs) (y :: ys) = x * y + dotNat xs ys := by
  simp [dotNat]

theorem dotNat_comm : ∀ (a b : List Nat), dotNat a b = dotNat b a := by
  intro a
  induction a with
  | nil => intro b; cases b <;> simp [dotNat]
  | cons x xs ih =>
    intro b
    cases b with
    | nil => simp [dotNat]
    | cons y ys => rw [dotNat_cons, dotNat_cons, ih, Nat.mul_comm]

theorem advanceN_eq (rng fuel : Nat) :
    ∀ (k : Nat) (g : Gen32),
      advanceN rng fuel k g = (drawList rng fuel k g).map (fun p => p.2) := by
  intro k
  induction k with
  | zero => intro g; rfl
  | succ k ih =>
    intro g
    rw [advanceN, drawList]
    cases h1 : lemireDraw rng fuel g with
    | none => rfl
    | some p =>
      obtain ⟨d, g1⟩ := p
      simp only
      rw [ih g1]
      cases h2 : drawList rng fuel k g1 <;> rfl

theorem drawList_append (rng fuel : Nat) :
    ∀ (a b : Nat) (g : Gen32),
      drawList rng fuel (a + b) g
        = (drawList rng fuel a g).bind (fun p =>
            (drawList rng fuel b p.2).map (fun q => (p.1 ++ q.1, q.2))) := by
  intro a
  induction a with
  | zero =>
    intro b g
    rw [Nat.zero_add, drawList]
    simp only [Option.some_bind]
    cases drawList rng fuel b g with
    | none => rfl
    | some q => simp
  | succ a ih =>
    intro b g
    have hadd : a + 1 + b = (a + b) + 1 := by omega
    rw [hadd, drawList, drawList]
    cases h1 : lemireDraw rng fuel g with
    | none => rfl
    | some p =>
      obtain ⟨d, g1⟩ := p
      simp only
      rw [ih b g1]
      cases h2 : drawList rng fuel a g1 with
      | none => rfl
      | some q =>
        obtain ⟨ds, g2⟩ := q
        simp only [Option.some_bind]
        cases h3 : drawList rng fuel b g2 with
        | none => simp [h3]
        | some r => simp [h3]

theorem gramFold_eq (rng fuel : Nat) :
    ∀ (k : Nat) (gA gB : Gen32) (a b c : Nat),
      gramFold rng fuel k gA gB a b c
        = (drawList rng fuel k gA).bind (fun pA =>
            (drawList rng fuel k gB).map (fun pB =>
              (pA.2, pB.2, a + dotNat pA.1 pA.1, b + dotNat pA.1 pB.1,
                c + dotNat pB.1 pB.1))) := by
  intro k
  induction k with
  | zero =>
    intro gA gB a b c
    rw [gramFold, drawList, drawList]
    simp [dotNat]
  | succ k ih =>
    intro gA gB a b c
    rw [gramFold, drawList]
    cases h1 : lemireDraw rng fuel gA with
    | none => rfl
    | some pA =>
      obtain ⟨dA, gA1⟩ := pA
      simp only
      cases h2 : lemireDraw rng fuel gB with
      | none =>
        have hB1 : drawList rng fuel (k+1) gB = none := by rw [drawList, h2]
        rw [hB1]
        cases h3 : drawList rng fuel k gA1 <;> simp [h3]
      | some pB =>
        obtain ⟨dB, gB1⟩ := pB
        simp only
        rw [ih gA1 gB1]
        conv_rhs => rw [drawList]
        rw [h2]
        simp only
        cases h3 : drawList rng fuel k gA1 with
        | none => rfl
        | some qA =>
          obtain ⟨dsA, gA2⟩ := qA
          simp only [Option.some_bind]
          cases h4 : drawList rng fuel k gB1 with
          | none => rfl
          | some qB =>
            obtain ⟨dsB, gB2⟩ := qB
            simp only [Option.map_some', Option.some_bind]
            rw [dotNat_cons, dotNat_cons, dotNat_cons]
            simp only [Option.some.injEq, Prod.mk.injEq]
            simp [Nat.add_assoc]

theorem advanceN_add (rng fuel : Nat) :
    ∀ (a b : Nat) (g : Gen32),
      advanceN rng fuel (a + b) g = (advanceN rng fuel a g).bind (advanceN rng fuel b) := by
  intro a
  induction a with
  | zero =>
    intro b g
    rw [Nat.zero_add, advanceN]
    rfl
  | succ a ih =>
    intro b g
    have hadd : a + 1 + b = (a + b) + 1 := by omega
    rw [hadd, advanceN, advanceN]
    cases h1 : lemireDraw rng fuel g with
    | none => rfl
    | some p =>
      obtain ⟨d, g1⟩ := p
      simp only
      exact ih b g1

theorem gramFold_add (rng fuel : Nat) :
    ∀ (a b : Nat) (gA gB : Gen32) (x y z : Nat),
      gramFold rng fuel (a + b) gA gB x y z
        = (gramFold rng fuel a gA gB x y z).bind (fun p =>
            gramFold rng fuel b p.1 p.2.1 p.2.2.1 p.2.2.2.1 p.2.2.2.2) := by
  intro a
  induction a with
  | zero =>
    intro b gA gB x y z
    rw [Nat.zero_add, gramFold]
    rfl
  | succ a ih =>
    intro b gA gB x y z
    have hadd : a + 1 + b = (a + b) + 1 := by omega
    rw [hadd, gramFold, gramFold]
    cases h1 : lemireDraw rng fuel gA with
    | none => rfl
    | some pA =>
      obtain ⟨dA, gA1⟩ := pA
      simp only
      cases h2 : lemireDraw rng fuel gB with
      | none => rfl
      | some pB =>
        obtain ⟨dB, gB1⟩ := pB
        simp only
        exact ih b gA1 gB1 _ _ _

theorem npSum_rowMul_eq {M : List (List Int)} {R N : Nat} (h : Rect M R N)
    {i j : Nat} (hi : i < R) (hj : j < R) :
    npSum (rowMul (M.getD i []) (M.getD j []))
      = ((List.range N).map (fun k => entry M i k * entry M j k)).sum := by
  rw [npSum_eq_sum, rowMul, rect_row_eq h hi, rect_row_eq h hj, zipWith_mapRange]

theorem gramSpec_two_rows (r0 r1 : List Int) (N : Nat) (h0 : r0.length = N)
    (h1 : r1.length = N) :
    gramSpec [r0, r1] 2 N
      = [[npSum (rowMul r0 r0), npSum (rowMul r0 r1)],
         [npSum (rowMul r1 r0), npSum (rowMul r1 r1)]] := by
  have hrect : Rect [r0, r1] 2 N := by
    refine ⟨rfl, ?_⟩
    intro row hrow
    rcases List.mem_cons.mp hrow with rfl | hrow
    · exact h0
    · rcases List.mem_cons.mp hrow with rfl | hrow
      · exact h1
      · simp at hrow
  have h02 : (0 : Nat) < 2 := by omega
  have h12 : (1 : Nat) < 2 := by omega
  have e00 := npSum_rowMul_eq hrect h02 h02
  have e01 := npSum_rowMul_eq hrect h02 h12
  have e10 := npSum_rowMul_eq hrect h12 h02
  have e11 := npSum_rowMul_eq hrect h12 h12
  have hr2 : List.range 2 = [0, 1] := by decide
  rw [gramSpec, hr2]
  simp only [List.map_cons, List.map_nil]
  rw [← e00, ← e01, ← e10, ← e11]
  rfl

theorem npSum_rowMul_ofNat : ∀ (a b : List Nat),
    npSum (rowMul (a.map Int.ofNat) (b.map Int.ofNat)) = Int.ofNat (dotNat a b) := by
  intro a
  induction a with
  | nil => intro b; cases b <;> simp [npSum, rowMul, dotNat]
  | cons x xs ih =>
    intro b
    cases b with
    | nil => simp [npSum, rowMul, dotNat]
    | cons y ys =>
      have hx : npSum (rowMul ((x :: xs).map Int.ofNat) ((y :: ys).map Int.ofNat))
          = Int.ofNat x * Int.ofNat y + npSum (rowMul (xs.map Int.ofNat) (ys.map Int.ofNat)) := by
        simp [npSum, rowMul]
      rw [hx, ih ys, dotNat_cons]
      simp only [Int.ofNat_eq_natCast]
      push_cast
      ring

theorem reshapeRows_two (numCols : Nat) (l : List Nat) :
    reshapeRows 2 numCols l = [l.take numCols, (l.drop numCols).take numCols] := rfl


/-! ### Packed runners

Kernel reduction of the structure-valued runners accumulates too much
evaluation state, so the generator state is also packed into a single
natural number: a live state `g` becomes `1 + state * 2^33 + bufE buf`
(zero marks a failed draw), and the two runners are re-expressed over these
packed numbers.  The packed functions are proved to simulate `lemireDraw`,
`advanceN` and `gramFold` exactly, and are the ones evaluated in chunks. -/

def bufE : Option Nat → Nat
  | none => 0
  | some v => v + 1

def packG (g : Gen32) : Nat := 1 + g.pcg.state * 2^33 + bufE g.buf

/-- Packed `next32`. -/
def next32P (inc p : Nat) : Nat × Nat :=
  let q := p - 1
  let s := q / 2^33
  let b := q % 2^33
  if b = 0 then
    let s2 := (s * PCG_MULT + inc) % 2^128
    let x := pcgOutput s2
    (x % 2^32, 1 + s2 * 2^33 + ((x >>> 32) + 1))
  else
    (b - 1, 1 + s * 2^33)

/-- Packed `lemireWhile`; a failed draw (fuel exhausted) is `(0, 0)`, a
successful draw of `d` is `(d + 1, packed state)`. -/
def lemireWhileP (rngExcl threshold inc : Nat) : Nat → Nat → Nat → Nat × Nat
  | fuel, m, p =>
    if m % 2^32 ≥ threshold then ((m >>> 32) + 1, p)
    else
      match fuel with
      | 0 => (0, 0)
      | f+1 =>
        let up := next32P inc p
        lemireWhileP rngExcl threshold inc f (up.1 * rngExcl) up.2

/-- Packed `lemireDraw`. -/
def lemireDrawP (rng fuel inc p : Nat) : Nat × Nat :=
  if p = 0 then (0, 0)
  else
    let rngExcl := rng + 1
    let up := next32P inc p
    let m := up.1 * rngExcl
    if m % 2^32 < rngExcl then
      lemireWhileP rngExcl ((2^32 - 1 - rng) % rngExcl) inc fuel m up.2
    else ((m >>> 32) + 1, up.2)

/-- Packed `gramFold`; any failed draw drives the whole state to zeros. -/
def gfP (rng fuel inc : Nat) : Nat → Nat → Nat → Nat → Nat → Nat →
    Nat × Nat × Nat × Nat × Nat
  | 0, pA, pB, a, b, c => (pA, pB, a, b, c)
  | k+1, pA, pB, a, b, c =>
    let dA := lemireDrawP rng fuel inc pA
    let dB := lemireDrawP rng fuel inc pB
    if dA.1 = 0 ∨ dB.1 = 0 then gfP rng fuel inc k 0 0 0 0 0
    else gfP rng fuel inc k dA.2 dB.2 (a + (dA.1 - 1) * (dA.1 - 1))
      (b + (dA.1 - 1) * (dB.1 - 1)) (c + (dB.1 - 1) * (dB.1 - 1))

/-- Live generator states with the fixed increment `inc`. -/
def GPack (inc : Nat) (g : Gen32) : Prop :=
  (∀ v, g.buf = some v → v < 2^32) ∧ g.pcg.inc = inc

theorem packG_ne_zero (g : Gen32) : packG g ≠ 0 := by
  simp [packG]

theorem next32_gpack {inc : Nat} {g : Gen32} (h : GPack inc g) :
    GPack inc (next32 g).2 := by
  refine ⟨(next32_bound h.1).2, ?_⟩
  rw [next32]
  cases hb : g.buf with
  | some v => exact h.2
  | none => exact h.2

theorem next32P_eq {inc : Nat} {g : Gen32} (h : GPack inc g) :
    next32P inc (packG g) = ((next32 g).1, packG (next32 g).2) := by
  rw [next32P, next32, packG]
  cases hb : g.buf with
  | some v =>
    have hv : v < 2^32 := h.1 v hb
    have hq : 1 + g.pcg.state * 2^33 + bufE (some v) - 1
        = g.pcg.state * 2^33 + (v + 1) := by
      simp [bufE]
      omega
    simp only [hq]
    have hdiv : (g.pcg.state * 2^33 + (v + 1)) / 2^33 = g.pcg.state := by
      rw [Nat.mul_comm g.pcg.state (2^33), Nat.mul_add_div (by norm_num)]
      have : (v + 1) / 2^33 = 0 := Nat.div_eq_of_lt (by omega)
      omega
    have hmod : (g.pcg.state * 2^33 + (v + 1)) % 2^33 = v + 1 := by
      rw [Nat.mul_comm g.pcg.state (2^33), Nat.mul_add_mod]
      exact Nat.mod_eq_of_lt (by omega)
    rw [hdiv, hmod]
    simp [packG, bufE]
  | none =>
    have hq : 1 + g.pcg.state * 2^33 + bufE none - 1 = g.pcg.state * 2^33 := by
      simp [bufE]
    simp only [hq]
    have hdiv : (g.pcg.state * 2^33) / 2^33 = g.pcg.state := by
      rw [Nat.mul_comm, Nat.mul_div_cancel_left _ (by norm_num)]
    have hmod : (g.pcg.state * 2^33) % 2^33 = 0 := by
      rw [Nat.mul_comm, Nat.mul_mod_right]
    rw [hdiv, hmod]
    simp [pcgNext64, pcgStep, h.2, packG, bufE]

theorem lemireWhile_gpack {rngExcl threshold inc : Nat} :
    ∀ (fuel m : Nat) (g : Gen32), GPack inc g →
      ∀ d g', lemireWhile rngExcl threshold fuel m g = some (d, g') → GPack inc g' := by
  intro fuel
  induction fuel with
  | zero =>
    intro m g hg d g' heq
    rw [lemireWhile] at heq
    by_cases hc : m % 2^32 ≥ threshold
    · rw [if_pos hc] at heq
      simp only [Option.some.injEq, Prod.mk.injEq] at heq
      exact heq.2 ▸ hg
    · rw [if_neg hc] at heq
      exact absurd heq (by simp)
  | succ f ih =>
    intro m g hg d g' heq
    rw [lemireWhile] at heq
    by_cases hc : m % 2^32 ≥ threshold
    · rw [if_pos hc] at heq
      simp only [Option.some.injEq, Prod.mk.injEq] at heq
      exact heq.2 ▸ hg
    · rw [if_neg hc] at heq
      rcases hng : next32 g with ⟨u, g2⟩
      rw [hng] at heq
      simp only at heq
      have hg2 : GPack inc g2 := by
        have := next32_gpack hg
        rw [hng] at this
        exact this
      exact ih _ g2 hg2 d g' heq

theorem lemireDraw_gpack {rng fuel inc : Nat} {g : Gen32} (hg : GPack inc g)
    {d : Nat} {g' : Gen32} (heq : lemireDraw rng fuel g = some (d, g')) :
    GPack inc g' := by
  rw [lemireDraw] at heq
  rcases hng : next32 g with ⟨u, g2⟩
  rw [hng] at heq
  simp only at heq
  have hg2 : GPack inc g2 := by
    have := next32_gpack hg
    rw [hng] at this
    exact this
  by_cases hc : u * (rng + 1) % 2^32 < rng + 1
  · rw [if_pos hc] at heq
    exact lemireWhile_gpack fuel _ g2 hg2 d g' heq
  · rw [if_neg hc] at heq
    simp only [Option.some.injEq, Prod.mk.injEq] at heq
    exact heq.2 ▸ hg2

theorem lemireWhileP_eq (rngExcl threshold inc : Nat) :
    ∀ (fuel m : Nat) (g : Gen32), GPack inc g →
      lemireWhileP rngExcl threshold inc fuel m (packG g)
        = (match lemireWhile rngExcl threshold fuel m g with
           | none => (0, 0)
           | some (d, g') => (d + 1, packG g')) := by
  intro fuel
  induction fuel with
  | zero =>
    intro m g hg
    rw [lemireWhileP, lemireWhile]
    by_cases hc : m % 2^32 ≥ threshold
    · rw [if_pos hc, if_pos hc]
    · rw [if_neg hc, if_neg hc]
  | succ f ih =>
    intro m g hg
    rw [lemireWhileP, lemireWhile]
    by_cases hc : m % 2^32 ≥ threshold
    · rw [if_pos hc, if_pos hc]
    · rw [if_neg hc, if_neg hc]
      simp only [next32P_eq hg]
      exact ih _ (next32 g).2 (next32_gpack hg)

theorem lemireDrawP_eq {rng fuel inc : Nat} {g : Gen32} (hg : GPack inc g) :
    lemireDrawP rng fuel inc (packG g)
      = (match lemireDraw rng fuel g with
         | none => (0, 0)
         | some (d, g') => (d + 1, packG g')) := by
  rw [lemireDrawP, lemireDraw, if_neg (packG_ne_zero g)]
  simp only [next32P_eq hg]
  by_cases hc : (next32 g).1 * (rng + 1) % 2^32 < rng + 1
  · rw [if_pos hc, if_pos hc]
    exact lemireWhileP_eq _ _ inc fuel _ (next32 g).2 (next32_gpack hg)
  · rw [if_neg hc, if_neg hc]

theorem gfP_zero (rng fuel inc : Nat) : ∀ k, gfP rng fuel inc k 0 0 0 0 0 = (0, 0, 0, 0, 0) := by
  intro k
  induction k with
  | zero => rfl
  | succ k ih =>
    rw [gfP]
    have h0 : lemireDrawP rng fuel inc 0 = (0, 0) := by rw [lemireDrawP]; simp
    simp only [h0]
    simpa using ih

theorem gfP_eq {rng fuel inc : Nat} :
    ∀ (k : Nat) (gA gB : Gen32) (a b c : Nat), GPack inc gA → GPack inc gB →
      gfP rng fuel inc k (packG gA) (packG gB) a b c
        = (match gramFold rng fuel k gA gB a b c with
           | none => (0, 0, 0, 0, 0)
           | some q => (packG q.1, packG q.2.1, q.2.2.1, q.2.2.2.1, q.2.2.2.2)) := by
  intro k
  induction k with
  | zero => intro gA gB a b c _ _; rfl
  | succ k ih =>
    intro gA gB a b c hgA hgB
    rw [gfP, gramFold]
    simp only [lemireDrawP_eq hgA, lemireDrawP_eq hgB]
    cases h1 : lemireDraw rng fuel gA with
    | none => simp [gfP_zero]
    | some pA =>
      obtain ⟨dA, gA1⟩ := pA
      simp only
      cases h2 : lemireDraw rng fuel gB with
      | none => simp [gfP_zero]
      | some pB =>
        obtain ⟨dB, gB1⟩ := pB
        simp only
        rw [if_neg (by simp)]
        simp only [Nat.add_sub_cancel]
        exact ih gA1 gB1 _ _ _ (lemireDraw_gpack hgA h1) (lemireDraw_gpack hgB h2)

theorem gfP_add (rng fuel inc : Nat) :
    ∀ (a b pA pB x y z : Nat),
      gfP rng fuel inc (a + b) pA pB x y z
        = (fun q : Nat × Nat × Nat × Nat × Nat =>
            gfP rng fuel inc b q.1 q.2.1 q.2.2.1 q.2.2.2.1 q.2.2.2.2)
          (gfP rng fuel inc a pA pB x y z) := by
  intro a
  induction a with
  | zero =>
    intro b pA pB x y z
    rw [Nat.zero_add]
    rfl
  | succ a ih =>
    intro b pA pB x y z
    have hadd : a + 1 + b = (a + b) + 1 := by omega
    rw [hadd, gfP]
    conv_rhs => rw [gfP]
    by_cases h : (lemireDrawP rng fuel inc pA).1 = 0 ∨ (lemireDrawP rng fuel inc pB).1 = 0
    · simp only [if_pos h]
      exact ih b 0 0 0 0 0
    · simp only [if_neg h]
      exact ih b _ _ _ _ _

theorem gfP_chain {rng fuel inc a b pA pB x y z pA1 pB1 x1 y1 z1 : Nat}
    {r : Nat × Nat × Nat × Nat × Nat}
    (h1 : gfP rng fuel inc a pA pB x y z = (pA1, pB1, x1, y1, z1))
    (h2 : gfP rng fuel inc b pA1 pB1 x1 y1 z1 = r) :
    gfP rng fuel inc (a + b) pA pB x y z = r := by
  rw [gfP_add, h1]
  exact h2


/-- `packG` is injective on live states sharing the increment. -/
theorem packG_inj {inc : Nat} {g g' : Gen32} (h : GPack inc g) (h' : GPack inc g')
    (he : packG g = packG g') : g = g' := by
  obtain ⟨⟨s, i⟩, b⟩ := g
  obtain ⟨⟨s', i'⟩, b'⟩ := g'
  have hb : bufE b < 2^33 := by
    cases b with
    | none => simp [bufE]
    | some v =>
      have := h.1 v rfl
      simp only [bufE]
      norm_num
      omega
  have hb' : bufE b' < 2^33 := by
    cases b' with
    | none => simp [bufE]
    | some v =>
      have := h'.1 v rfl
      simp only [bufE]
      norm_num
      omega
  simp only [packG] at he
  have h33 : (2:Nat)^33 = 8589934592 := by norm_num
  rw [h33] at he hb hb'
  have hs : s = s' ∧ bufE b = bufE b' := by constructor <;> omega
  have hbuf : b = b' := by
    cases b with
    | none =>
      cases b' with
      | none => rfl
      | some v => simp [bufE] at hs
    | some v =>
      cases b' with
      | none => simp [bufE] at hs
      | some w =>
        have := hs.2
        simp only [bufE, Nat.add_right_cancel_iff] at this
        rw [this]
  have hinc : i = i' := by
    have e1 : i = inc := h.2
    have e2 : i' = inc := h'.2
    rw [e1, e2]
  simp [hs.1, hbuf, hinc]

/-- `GPack` is preserved along successful draw lists. -/
theorem drawList_gpack {rng fuel inc : Nat} :
    ∀ (c : Nat) (g : Gen32), GPack inc g →
      ∀ p, drawList rng fuel c g = some p → GPack inc p.2 := by
  intro c
  induction c with
  | zero =>
    intro g hg p heq
    rw [drawList] at heq
    simp only [Option.some.injEq] at heq
    rw [← heq]
    exact hg
  | succ c ih =>
    intro g hg p heq
    rw [drawList] at heq
    cases h1 : lemireDraw rng fuel g with
    | none => rw [h1] at heq; exact absurd heq (by simp)
    | some q =>
      rw [h1] at heq
      obtain ⟨d1, g1⟩ := q
      simp only at heq
      cases h2 : drawList rng fuel c g1 with
      | none => rw [h2] at heq; exact absurd heq (by simp)
      | some r =>
        rw [h2] at heq
        obtain ⟨ds2, g2⟩ := r
        simp only [Option.some.injEq] at heq
        have := ih g1 (lemireDraw_gpack hg h1) (ds2, g2) h2
        rw [← heq]
        exact this

/-- The PCG64 generator seeded with 8675309 (state and increment computed
through SeedSequence pool mixing). -/
theorem pcgSeeded_8675309 :
    pcgSeeded 8675309
      = ⟨282474390989909043151038847198221267055,
         206057669517546204297910035632086015687⟩ := by rfl

/-- The generator state fresh from seed 8675309. -/
def gStart : Gen32 :=
  ⟨⟨282474390989909043151038847198221267055,
    206057669517546204297910035632086015687⟩, none⟩

/-- The generator state after the first 100000 bounded draws. -/
def gMid : Gen32 :=
  ⟨⟨61627727839012170552400170321124462719,
    206057669517546204297910035632086015687⟩, none⟩

theorem gStart_eq : (⟨pcgSeeded 8675309, none⟩ : Gen32) = gStart := by
  rw [pcgSeeded_8675309]; rfl

theorem packG_gStart :
    packG gStart = 2426436542518352812696729274283803142745814466561 := by rfl

theorem packG_gMid :
    packG gMid = 529378151190692050937065971668118770647352475649 := by rfl

theorem gpack_gStart : GPack 206057669517546204297910035632086015687 gStart :=
  ⟨fun _ h => Option.noConfusion h, rfl⟩

theorem gpack_gMid : GPack 206057669517546204297910035632086015687 gMid :=
  ⟨fun _ h => Option.noConfusion h, rfl⟩


/-! ### Chunked evaluation of the two-cursor packed runner

Seed 8675309, 100000 column pairs.  Each 500-step chunk is decided by
kernel reduction; `gfP_chain` glues chunks into milestones and milestones
into the full run, one link per `have` so no deep proof term arises. -/

theorem gfPChunk0 : gfP 9 4 206057669517546204297910035632086015687 500 2426436542518352812696729274283803142745814466561 529378151190692050937065971668118770647352475649 0 0 0 = (2705258529325947522463507503485973825162970136577, 1325458866298835250516473170605106721377325416449, 15593, 10609, 14565) := by rfl
theorem gfPChunk1 : gfP 9 4 206057669517546204297910035632086015687 500 2705258529325947522463507503485973825162970136577 1325458866298835250516473170605106721377325416449 15593 10609 14565 = (1088380413318877639184267988833161989629558128641, 1553585241270757997534601452319402901343702089729, 29569, 20711, 28623) := by rfl
theorem gfPChunk2 : gfP 9 4 206057669517546204297910035632086015687 500 1088380413318877639184267988833161989629558128641 1553585241270757997534601452319402901343702089729 29569 20711 28623 = (741487227409146652052609925956902599082607902721, 153765783380480854677215680028761215844772478977, 43484, 30747, 42551) := by rfl
theorem gfPChunk3 : gfP 9 4 206057669517546204297910035632086015687 500 741487227409146652052609925956902599082607902721 153765783380480854677215680028761215844772478977 43484 30747 42551 = (2024021560766974009579147378141094575539203604481, 37727096264041482169992224352865873350457556993, 57941, 40034, 55768) := by rfl
theorem gfPChunk4 : gfP 9 4 206057669517546204297910035632086015687 500 2024021560766974009579147378141094575539203604481 37727096264041482169992224352865873350457556993 57941 40034 55768 = (2436501472216505914067616337917365474309464653825, 1042132072413064569463309416683810204372179091457, 72741, 49820, 69175) := by rfl
theorem gfPChunk5 : gfP 9 4 206057669517546204297910035632086015687 500 2436501472216505914067616337917365474309464653825 1042132072413064569463309416683810204372179091457 72741 49820 69175 = (2375526490917137405735299108473949121945226182657, 1770381591151697351737319166354155974584464048129, 84964, 59149, 83406) := by rfl
theorem gfPChunk6 : gfP 9 4 206057669517546204297910035632086015687 500 2375526490917137405735299108473949121945226182657 1770381591151697351737319166354155974584464048129 84964 59149 83406 = (2058971298556774234763299532035773298736088743937, 1103755319623317162427119750342504614654679973889, 99870, 69584, 97407) := by rfl
theorem gfPChunk7 : gfP 9 4 206057669517546204297910035632086015687 500 2058971298556774234763299532035773298736088743937 1103755319623317162427119750342504614654679973889 99870 69584 97407 = (641768073019303923316926396173273044660349042689, 1613050156490474995161550942363956128533627011073, 114872, 80539, 111892) := by rfl
theorem gfPChunk8 : gfP 9 4 206057669517546204297910035632086015687 500 641768073019303923316926396173273044660349042689 1613050156490474995161550942363956128533627011073 114872 80539 111892 = (1062183191305742968597649478909672574762071621633, 2455685166957607038208479510983401133729751498753, 129727, 90677, 126134) := by rfl
theorem gfPChunk9 : gfP 9 4 206057669517546204297910035632086015687 500 1062183191305742968597649478909672574762071621633 2455685166957607038208479510983401133729751498753 129727 90677 126134 = (731447641614092523773243845757644995678928109569, 1959507111209802601932178583332502753616381083649, 143596, 100349, 140731) := by rfl
theorem gfPChunk10 : gfP 9 4 206057669517546204297910035632086015687 500 731447641614092523773243845757644995678928109569 1959507111209802601932178583332502753616381083649 143596 100349 140731 = (2237059126900651235176105242876690481480237842433, 641130359419598029796550117054036326109348364289, 158291, 110389, 154601) := by rfl
theorem gfPChunk11 : gfP 9 4 206057669517546204297910035632086015687 500 2237059126900651235176105242876690481480237842433 641130359419598029796550117054036326109348364289 158291 110389 154601 = (1919817567632096336808885408462652894459621015553, 908215039273455669272089937777544540110307983361, 172511, 120749, 169675) := by rfl
theorem gfPChunk12 : gfP 9 4 206057669517546204297910035632086015687 500 1919817567632096336808885408462652894459621015553 908215039273455669272089937777544540110307983361 172511 120749 169675 = (1147705040981320034251225798667563217145194086401, 1227876587542707144155193901533714704845087178753, 187546, 131177, 183628) := by rfl
theorem gfPChunk13 : gfP 9 4 206057669517546204297910035632086015687 500 1147705040981320034251225798667563217145194086401 1227876587542707144155193901533714704845087178753 187546 131177 183628 = (2420080841364052356522686343372765753129346007041, 2121041220243448889261646360860937170975979470849, 202669, 142022, 198362) := by rfl
theorem gfPChunk14 : gfP 9 4 206057669517546204297910035632086015687 500 2420080841364052356522686343372765753129346007041 2121041220243448889261646360860937170975979470849 202669 142022 198362 = (905742968728960021064928975040169660846450933761, 2237017942268072843998625672701878073735417692161, 216251, 152179, 212676) := by rfl
theorem gfPChunk15 : gfP 9 4 206057669517546204297910035632086015687 500 905742968728960021064928975040169660846450933761 2237017942268072843998625672701878073735417692161 216251 152179 212676 = (2068703506965790023256777490177978368320260276225, 313112656922285307112163214767912018453788098561, 231312, 162467, 226820) := by rfl
theorem gfPChunk16 : gfP 9 4 206057669517546204297910035632086015687 500 2068703506965790023256777490177978368320260276225 313112656922285307112163214767912018453788098561 231312 162467 226820 = (2615275152228687600628863954095226171536353263617, 1340440947750165672929447742660452404191737937921, 246403, 172650, 240218) := by rfl
theorem gfPChunk17 : gfP 9 4 206057669517546204297910035632086015687 500 2615275152228687600628863954095226171536353263617 1340440947750165672929447742660452404191737937921 246403 172650 240218 = (329536364925328951830709304663123217304367661057, 1055442647445189601753733023595669088844392693761, 259883, 182502, 254712) := by rfl
theorem gfPChunk18 : gfP 9 4 206057669517546204297910035632086015687 500 329536364925328951830709304663123217304367661057 1055442647445189601753733023595669088844392693761 259883 182502 254712 = (1399610082095020394026360352617241848100836868097, 2755072339754414553196912443420344358467740368897, 273838, 191856, 268491) := by rfl
theorem gfPChunk19 : gfP 9 4 206057669517546204297910035632086015687 500 1399610082095020394026360352617241848100836868097 2755072339754414553196912443420344358467740368897 273838 191856 268491 = (916638349482444055881059278640690701116404400129, 885822399256738520698590376782445972387683893249, 288497, 202119, 282979) := by rfl
theorem gfPChunk20 : gfP 9 4 206057669517546204297910035632086015687 500 916638349482444055881059278640690701116404400129 885822399256738520698590376782445972387683893249 288497 202119 282979 = (886365880345949086068776004593723161384507670529, 1471935503464785306777305037785707484059994685441, 302224, 212654, 298497) := by rfl
theorem gfPChunk21 : gfP 9 4 206057669517546204297910035632086015687 500 886365880345949086068776004593723161384507670529 1471935503464785306777305037785707484059994685441 302224 212654 298497 = (2871908143924233612203357008311980084041430859777, 1075851225845345411147354129984823675104784285697, 316460, 223460, 313612) := by rfl
theorem gfPChunk22 : gfP 9 4 206057669517546204297910035632086015687 500 2871908143924233612203357008311980084041430859777 1075851225845345411147354129984823675104784285697 316460 223460 313612 = (2230133984997411375117176583582283017071770992641, 2486618356227076403547155551121987202763175493633, 330101, 232278, 326643) := by rfl
theorem gfPChunk23 : gfP 9 4 206057669517546204297910035632086015687 500 2230133984997411375117176583582283017071770992641 2486618356227076403547155551121987202763175493633 330101 232278 326643 = (2866955801592005262627937781782676638830772092929, 2506667501898280795748507206371805515622201163777, 342356, 241373, 341128) := by rfl
theorem gfPChunk24 : gfP 9 4 206057669517546204297910035632086015687 500 2866955801592005262627937781782676638830772092929 2506667501898280795748507206371805515622201163777 342356 241373 341128 = (209070938001346968786541164001679810001348067329, 1254733048651053318253549334202454704401233739777, 357911, 251851, 354772) := by rfl
theorem gfPChunk25 : gfP 9 4 206057669517546204297910035632086015687 500 209070938001346968786541164001679810001348067329 1254733048651053318253549334202454704401233739777 357911 251851 354772 = (963113910658214685359691694674278911747106537473, 422951483018484894116968846209728322133924249601, 372178, 262047, 368930) := by rfl
theorem gfPChunk26 : gfP 9 4 206057669517546204297910035632086015687 500 963113910658214685359691694674278911747106537473 422951483018484894116968846209728322133924249601 372178 262047 368930 = (1959205624264243521274701233835060739955650199553, 1878906356592867729729997753670111692184254152705, 385594, 271874, 383037) := by rfl
theorem gfPChunk27 : gfP 9 4 206057669517546204297910035632086015687 500 1959205624264243521274701233835060739955650199553 1878906356592867729729997753670111692184254152705 385594 271874 383037 = (2216196994891655229563686124286306251063613718529, 1229321769880678112726929915327495029483550801921, 398954, 281375, 397260) := by rfl
theorem gfPChunk28 : gfP 9 4 206057669517546204297910035632086015687 500 2216196994891655229563686124286306251063613718529 1229321769880678112726929915327495029483550801921 398954 281375 397260 = (2013019422233570077310247571065202331427142631425, 2755800824872998292326388072138958427650233729025, 412441, 291063, 411331) := by rfl
theorem gfPChunk29 : gfP 9 4 206057669517546204297910035632086015687 500 2013019422233570077310247571065202331427142631425 2755800824872998292326388072138958427650233729025 412441 291063 411331 = (2754922794610826045432457088949457767685205000193, 1185497247896144609119385035604582194672813735937, 426129, 300771, 424974) := by rfl
theorem gfPChunk30 : gfP 9 4 206057669517546204297910035632086015687 500 2754922794610826045432457088949457767685205000193 1185497247896144609119385035604582194672813735937 426129 300771 424974 = (2312132194859214138079484218502284458216730394625, 298627315944773693762459175992002747622416711681, 441470, 311362, 439536) := by rfl
theorem gfPChunk31 : gfP 9 4 206057669517546204297910035632086015687 500 2312132194859214138079484218502284458216730394625 298627315944773693762459175992002747622416711681 441470 311362 439536 = (2779997675262941674026880909977396610049809317889, 602052939407449880328606588156125548037099487233, 455908, 321735, 453804) := by rfl
theorem gfPChunk32 : gfP 9 4 206057669517546204297910035632086015687 500 2779997675262941674026880909977396610049809317889 602052939407449880328606588156125548037099487233 455908 321735 453804 = (890131113737016962872598284854950795936096321537, 1859049928863582492329577619801767649902564737025, 470094, 331741, 467834) := by rfl
theorem gfPChunk33 : gfP 9 4 206057669517546204297910035632086015687 500 890131113737016962872598284854950795936096321537 1859049928863582492329577619801767649902564737025 470094 331741 467834 = (554286673879486969441211454395152364180881801217, 2327476697752739293337418605954624753233771364353, 484475, 342224, 482784) := by rfl
theorem gfPChunk34 : gfP 9 4 206057669517546204297910035632086015687 500 554286673879486969441211454395152364180881801217 2327476697752739293337418605954624753233771364353 484475 342224 482784 = (492960994524025790108435921606707109396314324993, 402606605406728062338506741142188281538153545729, 498500, 352798, 497460) := by rfl
theorem gfPChunk35 : gfP 9 4 206057669517546204297910035632086015687 500 492960994524025790108435921606707109396314324993 402606605406728062338506741142188281538153545729 498500 352798 497460 = (82456532304977268907328309969323449307415707649, 361209682952444562404910209231329061282791817217, 512086, 362838, 511596) := by rfl
theorem gfPChunk36 : gfP 9 4 206057669517546204297910035632086015687 500 82456532304977268907328309969323449307415707649 361209682952444562404910209231329061282791817217 512086 362838 511596 = (2024669112952027186812581005454225005206373924865, 2453529547590612704529894008673122392396005376001, 526833, 373707, 526731) := by rfl
theorem gfPChunk37 : gfP 9 4 206057669517546204297910035632086015687 500 2024669112952027186812581005454225005206373924865 2453529547590612704529894008673122392396005376001 526833 373707 526731 = (2244236393048085725692860553222033884301387366401, 1021104772031075039068847549601865539988108607489, 541415, 384258, 541985) := by rfl
theorem gfPChunk38 : gfP 9 4 206057669517546204297910035632086015687 500 2244236393048085725692860553222033884301387366401 1021104772031075039068847549601865539988108607489 541415 384258 541985 = (2180917166387224178152915184169809339959843225601, 2910092923335800895483109818913898413096997748737, 555888, 394814, 556960) := by rfl
theorem gfPChunk39 : gfP 9 4 206057669517546204297910035632086015687 500 2180917166387224178152915184169809339959843225601 2910092923335800895483109818913898413096997748737 555888 394814 556960 = (173905034350276029044962221955061260231943127041, 904707954390388282502710114471137362992374480897, 570141, 405263, 571295) := by rfl
theorem gfPChunk40 : gfP 9 4 206057669517546204297910035632086015687 500 173905034350276029044962221955061260231943127041 904707954390388282502710114471137362992374480897 570141 405263 571295 = (2051543906753019905330794978405830393216234422273, 2312233389756249132242148900352456328188222504961, 584951, 416018, 585989) := by rfl
theorem gfPChunk41 : gfP 9 4 206057669517546204297910035632086015687 500 2051543906753019905330794978405830393216234422273 2312233389756249132242148900352456328188222504961 584951 416018 585989 = (2517195610737531205697990909877432841781299380225, 1561185369603533127227427883348005241760878952449, 599476, 426385, 600177) := by rfl
theorem gfPChunk42 : gfP 9 4 206057669517546204297910035632086015687 500 2517195610737531205697990909877432841781299380225 1561185369603533127227427883348005241760878952449 599476 426385 600177 = (2838932495137579784323539305516701838620135260161, 1627644878101463463857733075352365824428797329409, 613735, 436261, 613831) := by rfl
theorem gfPChunk43 : gfP 9 4 206057669517546204297910035632086015687 500 2838932495137579784323539305516701838620135260161 1627644878101463463857733075352365824428797329409 613735 436261 613831 = (1421211232454932728557966661160445038039775838209, 2148637979395417177219924261985684469039969075201, 628462, 447101, 628597) := by rfl
theorem gfPChunk44 : gfP 9 4 206057669517546204297910035632086015687 500 1421211232454932728557966661160445038039775838209 2148637979395417177219924261985684469039969075201 628462 447101 628597 = (482494434401510537874068805065433789928954658817, 1750574183411743671986874581180087992322449473537, 642802, 457092, 642875) := by rfl
theorem gfPChunk45 : gfP 9 4 206057669517546204297910035632086015687 500 482494434401510537874068805065433789928954658817 1750574183411743671986874581180087992322449473537 642802 457092 642875 = (2393526310731365774282793207923041578013650059265, 109993255300433713481008960552245025474900656129, 656257, 466737, 656640) := by rfl
theorem gfPChunk46 : gfP 9 4 206057669517546204297910035632086015687 500 2393526310731365774282793207923041578013650059265 109993255300433713481008960552245025474900656129 656257 466737 656640 = (1327851740825502630882969773905844870381815463937, 1143715991791897855154868375019460024585173336065, 670139, 476041, 670138) := by rfl
theorem gfPChunk47 : gfP 9 4 206057669517546204297910035632086015687 500 1327851740825502630882969773905844870381815463937 1143715991791897855154868375019460024585173336065 670139 476041 670138 = (754072935003611481146566788975074445199369306113, 733815350505429773967236955771536470145832583169, 684246, 486309, 685020) := by rfl
theorem gfPChunk48 : gfP 9 4 206057669517546204297910035632086015687 500 754072935003611481146566788975074445199369306113 733815350505429773967236955771536470145832583169 684246 486309 685020 = (2615790415248714845855087688490848232571070840833, 33286214530323034788648860828911595695600828417, 699722, 497877, 700320) := by rfl
theorem gfPChunk49 : gfP 9 4 206057669517546204297910035632086015687 500 2615790415248714845855087688490848232571070840833 33286214530323034788648860828911595695600828417 699722 497877 700320 = (2364224211534733944857538225894869472645822283777, 945017863861346206650742659800243442068957954049, 713853, 508049, 714649) := by rfl
theorem gfPChunk50 : gfP 9 4 206057669517546204297910035632086015687 500 2364224211534733944857538225894869472645822283777 945017863861346206650742659800243442068957954049 713853 508049 714649 = (621873482491512481313182724703808961889188184065, 1435725729196845781761097859629952449743360622593, 728165, 518099, 728604) := by rfl
theorem gfPChunk51 : gfP 9 4 206057669517546204297910035632086015687 500 621873482491512481313182724703808961889188184065 1435725729196845781761097859629952449743360622593 728165 518099 728604 = (2339915629097503620462823633402062653923740614657, 103669393882338250894024199074305530091142119425, 742860, 528465, 742463) := by rfl
theorem gfPChunk52 : gfP 9 4 206057669517546204297910035632086015687 500 2339915629097503620462823633402062653923740614657 103669393882338250894024199074305530091142119425 742860 528465 742463 = (2304927472969694433752139592978723233767190691841, 772855336438659447995222013312950753419428102145, 756436, 538229, 757153) := by rfl
theorem gfPChunk53 : gfP 9 4 206057669517546204297910035632086015687 500 2304927472969694433752139592978723233767190691841 772855336438659447995222013312950753419428102145 756436 538229 757153 = (1467404470893006184507810694732256210608818487297, 2225667001858991306585770805201127351276196069377, 770180, 548030, 770874) := by rfl
theorem gfPChunk54 : gfP 9 4 206057669517546204297910035632086015687 500 1467404470893006184507810694732256210608818487297 2225667001858991306585770805201127351276196069377 770180 548030 770874 = (2256413834946238348220240652376329987628040454145, 1676734533765773993640858805002702454304221954049, 784421, 557218, 784312) := by rfl
theorem gfPChunk55 : gfP 9 4 206057669517546204297910035632086015687 500 2256413834946238348220240652376329987628040454145 1676734533765773993640858805002702454304221954049 784421 557218 784312 = (1772228951411625810394878542624397401319054245889, 386969272617671114470348932319786046027930271745, 798853, 567592, 798866) := by rfl
theorem gfPChunk56 : gfP 9 4 206057669517546204297910035632086015687 500 1772228951411625810394878542624397401319054245889 386969272617671114470348932319786046027930271745 798853 567592 798866 = (2899713171117641072209798476727543534529793753089, 469638578083580785412846365016533188799788744705, 813345, 577450, 812569) := by rfl
theorem gfPChunk57 : gfP 9 4 206057669517546204297910035632086015687 500 2899713171117641072209798476727543534529793753089 469638578083580785412846365016533188799788744705 813345 577450 812569 = (1049800141274213420243077925841244134544114712577, 447118197196842479745706674549964806219045535745, 826952, 586813, 826432) := by rfl
theorem gfPChunk58 : gfP 9 4 206057669517546204297910035632086015687 500 1049800141274213420243077925841244134544114712577 447118197196842479745706674549964806219045535745 826952 586813 826432 = (1111933746468230845949974372057859490431547473921, 542643991837555070546501870360581222074171785217, 840625, 596366, 840736) := by rfl
theorem gfPChunk59 : gfP 9 4 206057669517546204297910035632086015687 500 1111933746468230845949974372057859490431547473921 542643991837555070546501870360581222074171785217 840625 596366 840736 = (2658734903477794831371725173281250629745188536321, 410912730194127413313742244499386738298541047809, 854134, 606379, 854910) := by rfl
theorem gfPChunk60 : gfP 9 4 206057669517546204297910035632086015687 500 2658734903477794831371725173281250629745188536321 410912730194127413313742244499386738298541047809 854134 606379 854910 = (1123795800615772716261908764418140554504314028033, 1463536347666908151907225412148205599374576713729, 868095, 616833, 869803) := by rfl
theorem gfPChunk61 : gfP 9 4 206057669517546204297910035632086015687 500 1123795800615772716261908764418140554504314028033 1463536347666908151907225412148205599374576713729 868095 616833 869803 = (74913051751121624582984170014880472542232969217, 669931958320376589022787519566479877127349993473, 882184, 627096, 883981) := by rfl
theorem gfPChunk62 : gfP 9 4 206057669517546204297910035632086015687 500 74913051751121624582984170014880472542232969217 669931958320376589022787519566479877127349993473 882184 627096 883981 = (107261016622651766778041168132031862800048455681, 958498548548880768639973426422961857219784605697, 896746, 637576, 898413) := by rfl
theorem gfPChunk63 : gfP 9 4 206057669517546204297910035632086015687 500 107261016622651766778041168132031862800048455681 958498548548880768639973426422961857219784605697 896746 637576 898413 = (532160494638203775371257731952439014086013878273, 2784027287009696043381755884887416653542196248577, 909935, 647367, 912873) := by rfl
theorem gfPChunk64 : gfP 9 4 206057669517546204297910035632086015687 500 532160494638203775371257731952439014086013878273 2784027287009696043381755884887416653542196248577 909935 647367 912873 = (9052275364252233784565941201537031754957717505, 280488756714490646585855526048863685482557472769, 924474, 657226, 926148) := by rfl
theorem gfPChunk65 : gfP 9 4 206057669517546204297910035632086015687 500 9052275364252233784565941201537031754957717505 280488756714490646585855526048863685482557472769 924474 657226 926148 = (1929216782637396606923485704993843761166560526337, 2529030619550180524523449223504733269111382999041, 937908, 667208, 940580) := by rfl
theorem gfPChunk66 : gfP 9 4 206057669517546204297910035632086015687 500 1929216782637396606923485704993843761166560526337 2529030619550180524523449223504733269111382999041 937908 667208 940580 = (783881855589154381416809456395707551615845138433, 2552822417054635316758864990327175108500752695297, 951478, 676676, 953993) := by rfl
theorem gfPChunk67 : gfP 9 4 206057669517546204297910035632086015687 500 783881855589154381416809456395707551615845138433 2552822417054635316758864990327175108500752695297 951478 676676 953993 = (2367582887516029582210316100260750656330031693825, 1424412021883676048942295358053632811482589691905, 965946, 686300, 967171) := by rfl
theorem gfPChunk68 : gfP 9 4 206057669517546204297910035632086015687 500 2367582887516029582210316100260750656330031693825 1424412021883676048942295358053632811482589691905 965946 686300 967171 = (738704792633567949428289094174089747991392944129, 189774396377176149541363033988142298887014580225, 979317, 695570, 981844) := by rfl
theorem gfPChunk69 : gfP 9 4 206057669517546204297910035632086015687 500 738704792633567949428289094174089747991392944129 189774396377176149541363033988142298887014580225 979317 695570 981844 = (1308783079349615273851982997892298204852179173377, 994670904990190779131432555968843064852518797313, 992442, 704955, 995973) := by rfl
theorem gfPChunk70 : gfP 9 4 206057669517546204297910035632086015687 500 1308783079349615273851982997892298204852179173377 994670904990190779131432555968843064852518797313 992442 704955 995973 = (2466304812675414522064333573168450531391747129345, 2657374504486132201197585214074549252769372438529, 1006600, 715187, 1009793) := by rfl
theorem gfPChunk71 : gfP 9 4 206057669517546204297910035632086015687 500 2466304812675414522064333573168450531391747129345 2657374504486132201197585214074549252769372438529 1006600 715187 1009793 = (1674269146002913376368855702963762227144348925953, 1256158568046403440047596779216955781023533105153, 1020258, 725173, 1024276) := by rfl
theorem gfPChunk72 : gfP 9 4 206057669517546204297910035632086015687 500 1674269146002913376368855702963762227144348925953 1256158568046403440047596779216955781023533105153 1020258 725173 1024276 = (2814238818777995547249412601552068110106352418817, 1536680811518286867735008878990258532984813518849, 1034658, 735558, 1038887) := by rfl
theorem gfPChunk73 : gfP 9 4 206057669517546204297910035632086015687 500 2814238818777995547249412601552068110106352418817 1536680811518286867735008878990258532984813518849 1034658 735558 1038887 = (2656554469028178234206338747091102687467388534785, 2588210163316576921086327530961315958517030453249, 1048624, 744961, 1052174) := by rfl
theorem gfPChunk74 : gfP 9 4 206057669517546204297910035632086015687 500 2656554469028178234206338747091102687467388534785 2588210163316576921086327530961315958517030453249 1048624 744961 1052174 = (2113979654201161905861520866163024300159417712641, 578868253728346628095432388290563111642535559169, 1063812, 755464, 1065932) := by rfl
theorem gfPChunk75 : gfP 9 4 206057669517546204297910035632086015687 500 2113979654201161905861520866163024300159417712641 578868253728346628095432388290563111642535559169 1063812 755464 1065932 = (1161604841615446549964503034145658996195684515841, 48466894467779599679623410681739857316722769921, 1078146, 765351, 1079645) := by rfl
theorem gfPChunk76 : gfP 9 4 206057669517546204297910035632086015687 500 1161604841615446549964503034145658996195684515841 48466894467779599679623410681739857316722769921 1078146 765351 1079645 = (635451773883940061975658635315989878821514903553, 1742142623228428386546569290894974078495548768257, 1092785, 775799, 1094460) := by rfl
theorem gfPChunk77 : gfP 9 4 206057669517546204297910035632086015687 500 635451773883940061975658635315989878821514903553 1742142623228428386546569290894974078495548768257 1092785 775799 1094460 = (2804669502775341446285685944570391822422301999105, 2770913696829152019406757630979156293736317583361, 1107477, 785213, 1107198) := by rfl
theorem gfPChunk78 : gfP 9 4 206057669517546204297910035632086015687 500 2804669502775341446285685944570391822422301999105 2770913696829152019406757630979156293736317583361 1107477 785213 1107198 = (2543482714671632336624239582706611717122799173633, 369720329706041068709932855863821396271146467329, 1122167, 795594, 1120963) := by rfl
theorem gfPChunk79 : gfP 9 4 206057669517546204297910035632086015687 500 2543482714671632336624239582706611717122799173633 369720329706041068709932855863821396271146467329 1122167 795594 1120963 = (1811856864496200122480389043843571467381446279169, 1014654955633721671729441720853764224474794688513, 1136602, 805714, 1134881) := by rfl
theorem gfPChunk80 : gfP 9 4 206057669517546204297910035632086015687 500 1811856864496200122480389043843571467381446279169 1014654955633721671729441720853764224474794688513 1136602 805714 1134881 = (622040838976607246016065368289589627670889496577, 247599919335068888775792730430739326322635440129, 1150441, 815989, 1149597) := by rfl
theorem gfPChunk81 : gfP 9 4 206057669517546204297910035632086015687 500 622040838976607246016065368289589627670889496577 247599919335068888775792730430739326322635440129 1150441 815989 1149597 = (59895378177534807430574840628287505473512407041, 427892030353122413332723721315086731775884394497, 1165669, 826504, 1164162) := by rfl
theorem gfPChunk82 : gfP 9 4 206057669517546204297910035632086015687 500 59895378177534807430574840628287505473512407041 427892030353122413332723721315086731775884394497 1165669 826504 1164162 = (2060891925996354422702704078850834433899650613249, 672161892413701703523810557662473868056587141121, 1179616, 836069, 1177651) := by rfl
theorem gfPChunk83 : gfP 9 4 206057669517546204297910035632086015687 500 2060891925996354422702704078850834433899650613249 672161892413701703523810557662473868056587141121 1179616 836069 1177651 = (574532698833698268929575791729996855045722734593, 1285765705108171147103169513937218674075828748289, 1193747, 845871, 1191504) := by rfl
theorem gfPChunk84 : gfP 9 4 206057669517546204297910035632086015687 500 574532698833698268929575791729996855045722734593 1285765705108171147103169513937218674075828748289 1193747 845871 1191504 = (799947467206860207763006001770793312910877655041, 417297354581069129477289317251304058588724461569, 1207007, 855974, 1206494) := by rfl
theorem gfPChunk85 : gfP 9 4 206057669517546204297910035632086015687 500 799947467206860207763006001770793312910877655041 417297354581069129477289317251304058588724461569 1207007 855974 1206494 = (864144556000456102093789688877550174539970772993, 486484397317235167807085355704196705045727674369, 1220821, 865558, 1219785) := by rfl
theorem gfPChunk86 : gfP 9 4 206057669517546204297910035632086015687 500 864144556000456102093789688877550174539970772993 486484397317235167807085355704196705045727674369 1220821 865558 1219785 = (888537987544908790903925414113813008242960236545, 1188193153689625443247603829059132546589189472257, 1234445, 875488, 1234354) := by rfl
theorem gfPChunk87 : gfP 9 4 206057669517546204297910035632086015687 500 888537987544908790903925414113813008242960236545 1188193153689625443247603829059132546589189472257 1234445 875488 1234354 = (2427342510692784195993856658928833586253713637377, 1505147303012516199058390234578534307198708744193, 1248237, 885628, 1248851) := by rfl
theorem gfPChunk88 : gfP 9 4 206057669517546204297910035632086015687 500 2427342510692784195993856658928833586253713637377 1505147303012516199058390234578534307198708744193 1248237 885628 1248851 = (2073418161920420770656325410616103609885259726849, 1361864667257376663864681827248564100960083771393, 1263086, 895798, 1263292) := by rfl
theorem gfPChunk89 : gfP 9 4 206057669517546204297910035632086015687 500 2073418161920420770656325410616103609885259726849 1361864667257376663864681827248564100960083771393 1263086 895798 1263292 = (2097694599865591566283886744066024728663592796161, 992070431161286812938104262299089587783008780289, 1277962, 905752, 1276822) := by rfl
theorem gfPChunk90 : gfP 9 4 206057669517546204297910035632086015687 500 2097694599865591566283886744066024728663592796161 992070431161286812938104262299089587783008780289 1277962 905752 1276822 = (1284743888275784216922748376380435204202395860993, 1917870145551761799398535885700406865609615212545, 1291007, 915917, 1291547) := by rfl
theorem gfPChunk91 : gfP 9 4 206057669517546204297910035632086015687 500 1284743888275784216922748376380435204202395860993 1917870145551761799398535885700406865609615212545 1291007 915917 1291547 = (429350140139260351501880382766784219984334684161, 1234879126816866538126522093152642962229586558977, 1305841, 926535, 1306196) := by rfl
theorem gfPChunk92 : gfP 9 4 206057669517546204297910035632086015687 500 429350140139260351501880382766784219984334684161 1234879126816866538126522093152642962229586558977 1305841 926535 1306196 = (1136412582423707346126040976999193757498904412161, 1055876827251575478535060704982723218571922505729, 1320662, 937891, 1322026) := by rfl
theorem gfPChunk93 : gfP 9 4 206057669517546204297910035632086015687 500 1136412582423707346126040976999193757498904412161 1055876827251575478535060704982723218571922505729 1320662 937891 1322026 = (781473917008772049395699623071778606699390173185, 2778903360866860878288638245228594742036285882369, 1335596, 948714, 1336375) := by rfl
theorem gfPChunk94 : gfP 9 4 206057669517546204297910035632086015687 500 781473917008772049395699623071778606699390173185 2778903360866860878288638245228594742036285882369 1335596 948714 1336375 = (818377132461988024836503720742846731730141839361, 1786415041160189340165010961862061662032992665601, 1349421, 958527, 1350744) := by rfl
theorem gfPChunk95 : gfP 9 4 206057669517546204297910035632086015687 500 818377132461988024836503720742846731730141839361 1786415041160189340165010961862061662032992665601 1349421 958527 1350744 = (2426941520396015699146098757315193380511774932993, 1006574717668596326542738001752293812775356989441, 1363610, 969062, 1365951) := by rfl
theorem gfPChunk96 : gfP 9 4 206057669517546204297910035632086015687 500 2426941520396015699146098757315193380511774932993 1006574717668596326542738001752293812775356989441 1363610 969062 1365951 = (1961407337066207798811519171537245285712387899393, 177703375293134300227985928127100361813998436353, 1377421, 978735, 1379625) := by rfl
theorem gfPChunk97 : gfP 9 4 206057669517546204297910035632086015687 500 1961407337066207798811519171537245285712387899393 177703375293134300227985928127100361813998436353 1377421 978735 1379625 = (1232558372999915055558778927256142124860445818881, 121894561895146513365937262743391311180460982273, 1391566, 988539, 1393243) := by rfl
theorem gfPChunk98 : gfP 9 4 206057669517546204297910035632086015687 500 1232558372999915055558778927256142124860445818881 121894561895146513365937262743391311180460982273 1391566 988539 1393243 = (2324259221925568744296561043793663605054713626625, 39219939657696421202754103248297830232621056001, 1405153, 998219, 1406500) := by rfl
theorem gfPChunk99 : gfP 9 4 206057669517546204297910035632086015687 500 2324259221925568744296561043793663605054713626625 39219939657696421202754103248297830232621056001 1405153 998219 1406500 = (2400425890512406664297555903814525018401176289281, 2134640380664072504026494590585567808983767449601, 1419055, 1008172, 1420577) := by rfl
theorem gfPChunk100 : gfP 9 4 206057669517546204297910035632086015687 500 2400425890512406664297555903814525018401176289281 2134640380664072504026494590585567808983767449601 1419055 1008172 1420577 = (2729723640414729361985722893508364519789780008961, 187666454607596994866551288732998972637039296513, 1433065, 1018018, 1434482) := by rfl
theorem gfPChunk101 : gfP 9 4 206057669517546204297910035632086015687 500 2729723640414729361985722893508364519789780008961 187666454607596994866551288732998972637039296513 1433065 1018018 1434482 = (1444436055397502737466213664763854334163333152769, 1081637106886024631051062672406263529156705779713, 1447270, 1028151, 1448107) := by rfl
theorem gfPChunk102 : gfP 9 4 206057669517546204297910035632086015687 500 1444436055397502737466213664763854334163333152769 1081637106886024631051062672406263529156705779713 1447270 1028151 1448107 = (591233669097393350736266102753999550705580376065, 1323206106670994071384775415353534125990393937921, 1461075, 1038094, 1462443) := by rfl
theorem gfPChunk103 : gfP 9 4 206057669517546204297910035632086015687 500 591233669097393350736266102753999550705580376065 1323206106670994071384775415353534125990393937921 1461075 1038094 1462443 = (2652681205601846577479429589007895120181760884737, 401438845438355882186669705222796018775893213185, 1475441, 1047581, 1476288) := by rfl
theorem gfPChunk104 : gfP 9 4 206057669517546204297910035632086015687 500 2652681205601846577479429589007895120181760884737 401438845438355882186669705222796018775893213185 1475441 1047581 1476288 = (620297033651988013901876302982946817038811660289, 1197930686805946523460488999132381527130641530881, 1489934, 1057639, 1490396) := by rfl
theorem gfPChunk105 : gfP 9 4 206057669517546204297910035632086015687 500 620297033651988013901876302982946817038811660289 1197930686805946523460488999132381527130641530881 1489934 1057639 1490396 = (2569554583567092246327776500752215470836713259009, 16297423663886871456130964719524035229525213185, 1504536, 1068409, 1504746) := by rfl
theorem gfPChunk106 : gfP 9 4 206057669517546204297910035632086015687 500 2569554583567092246327776500752215470836713259009 16297423663886871456130964719524035229525213185 1504536 1068409 1504746 = (464756248268002487820088694511739850770620612609, 1917016370415156252570703554840478043742631100417, 1518667, 1078552, 1519374) := by rfl
theorem gfPChunk107 : gfP 9 4 206057669517546204297910035632086015687 500 464756248268002487820088694511739850770620612609 1917016370415156252570703554840478043742631100417 1518667 1078552 1519374 = (612565460559912642170471691964536223892265500673, 1247859899743530792351511338812645292270384316417, 1532040, 1088437, 1533702) := by rfl
theorem gfPChunk108 : gfP 9 4 206057669517546204297910035632086015687 500 612565460559912642170471691964536223892265500673 1247859899743530792351511338812645292270384316417 1532040 1088437 1533702 = (734583262420524280045821030467341594345970073601, 1311464262543435220205322730346548745421298073601, 1545789, 1098454, 1548161) := by rfl
theorem gfPChunk109 : gfP 9 4 206057669517546204297910035632086015687 500 734583262420524280045821030467341594345970073601 1311464262543435220205322730346548745421298073601 1545789 1098454 1548161 = (1872815640735546498094448943709182584337876385793, 1275176927940069167966579769743269287307383930881, 1559736, 1108952, 1562836) := by rfl
theorem gfPChunk110 : gfP 9 4 206057669517546204297910035632086015687 500 1872815640735546498094448943709182584337876385793 1275176927940069167966579769743269287307383930881 1559736 1108952 1562836 = (2829242395232545628841123229128327197775397650433, 521448450903583944146078567574826366084002611201, 1573663, 1119390, 1577064) := by rfl
theorem gfPChunk111 : gfP 9 4 206057669517546204297910035632086015687 500 2829242395232545628841123229128327197775397650433 521448450903583944146078567574826366084002611201 1573663 1119390 1577064 = (813594077364326278909662031899031423645447618561, 294424250158104389032034053849867532168324972545, 1587157, 1129441, 1591938) := by rfl
theorem gfPChunk112 : gfP 9 4 206057669517546204297910035632086015687 500 813594077364326278909662031899031423645447618561 294424250158104389032034053849867532168324972545 1587157 1129441 1591938 = (2817786566992937888876583968051798461196546342913, 1276465457592942675152879013781728325194024484865, 1601268, 1139522, 1605760) := by rfl
theorem gfPChunk113 : gfP 9 4 206057669517546204297910035632086015687 500 2817786566992937888876583968051798461196546342913 1276465457592942675152879013781728325194024484865 1601268 1139522 1605760 = (2639575578525687463855380067333407588644384931841, 337044272750131819829038578032881426410546135041, 1614674, 1149354, 1620131) := by rfl
theorem gfPChunk114 : gfP 9 4 206057669517546204297910035632086015687 500 2639575578525687463855380067333407588644384931841 337044272750131819829038578032881426410546135041 1614674 1149354 1620131 = (19555043377479770103279031528380015839415369729, 686827581666287599094219711559502345879722917889, 1628208, 1159725, 1635385) := by rfl
theorem gfPChunk115 : gfP 9 4 206057669517546204297910035632086015687 500 19555043377479770103279031528380015839415369729 686827581666287599094219711559502345879722917889 1628208 1159725 1635385 = (1038206869897780433606066257427812387576606621697, 893767156123291109799252667340457066274196815873, 1642097, 1169963, 1650656) := by rfl
theorem gfPChunk116 : gfP 9 4 206057669517546204297910035632086015687 500 1038206869897780433606066257427812387576606621697 893767156123291109799252667340457066274196815873 1642097 1169963 1650656 = (2631397878348962347378065582606646653327400501249, 2346680818185295304004416935630974112295313997825, 1657742, 1180306, 1664168) := by rfl
theorem gfPChunk117 : gfP 9 4 206057669517546204297910035632086015687 500 2631397878348962347378065582606646653327400501249 2346680818185295304004416935630974112295313997825 1657742 1180306 1664168 = (1491087031394876047029552267315678680306736431105, 1725848497896982370524488877678160962569799467009, 1671600, 1190655, 1679361) := by rfl
theorem gfPChunk118 : gfP 9 4 206057669517546204297910035632086015687 500 1491087031394876047029552267315678680306736431105 1725848497896982370524488877678160962569799467009 1671600 1190655 1679361 = (2868064074841962314826924294138453574968766627841, 2892022899181053995427569836517518799971849076737, 1685918, 1200606, 1692949) := by rfl
theorem gfPChunk119 : gfP 9 4 206057669517546204297910035632086015687 500 2868064074841962314826924294138453574968766627841 2892022899181053995427569836517518799971849076737 1685918 1200606 1692949 = (336554616304247288386824449866092020414143266817, 975711135059734688780816958611021452787486556161, 1699542, 1210373, 1707432) := by rfl
theorem gfPChunk120 : gfP 9 4 206057669517546204297910035632086015687 500 336554616304247288386824449866092020414143266817 975711135059734688780816958611021452787486556161 1699542 1210373 1707432 = (19290861685107075071370707881342088730564886529, 106866317856246377002198477228559280507390525441, 1713942, 1220214, 1721199) := by rfl
theorem gfPChunk121 : gfP 9 4 206057669517546204297910035632086015687 500 19290861685107075071370707881342088730564886529 106866317856246377002198477228559280507390525441 1713942 1220214 1721199 = (1752117204999280061126328048955413253477221007361, 1436962300974611135413259878878241601369852084225, 1728252, 1230666, 1736437) := by rfl
theorem gfPChunk122 : gfP 9 4 206057669517546204297910035632086015687 500 1752117204999280061126328048955413253477221007361 1436962300974611135413259878878241601369852084225 1728252 1230666 1736437 = (1894687883106786837433442090098694197007253241857, 2784374596845129218975751692031731337906695962625, 1742051, 1241314, 1751912) := by rfl
theorem gfPChunk123 : gfP 9 4 206057669517546204297910035632086015687 500 1894687883106786837433442090098694197007253241857 2784374596845129218975751692031731337906695962625 1742051 1241314 1751912 = (1669702132495487024522361126989964419752177696769, 17145374432943519513250882868401612803530555393, 1756516, 1251461, 1766363) := by rfl
theorem gfPChunk124 : gfP 9 4 206057669517546204297910035632086015687 500 1669702132495487024522361126989964419752177696769 17145374432943519513250882868401612803530555393 1756516 1251461 1766363 = (2447280685615681298103450845597168641572843028481, 2016797733105180077936161526007166280351403212801, 1770609, 1261607, 1781087) := by rfl
theorem gfPChunk125 : gfP 9 4 206057669517546204297910035632086015687 500 2447280685615681298103450845597168641572843028481 2016797733105180077936161526007166280351403212801 1770609 1261607 1781087 = (2743670107213285787795488478524023310684021325825, 1505947057528721026356814558506629272859169521665, 1784619, 1271074, 1794736) := by rfl
theorem gfPChunk126 : gfP 9 4 206057669517546204297910035632086015687 500 2743670107213285787795488478524023310684021325825 1505947057528721026356814558506629272859169521665 1784619 1271074 1794736 = (2705846512137762834250281910034965663574573187073, 1820632003489972402795775368070553549209897795585, 1798610, 1280858, 1808426) := by rfl
theorem gfPChunk127 : gfP 9 4 206057669517546204297910035632086015687 500 2705846512137762834250281910034965663574573187073 1820632003489972402795775368070553549209897795585 1798610 1280858 1808426 = (2011160269067283337843286974671650899884872040449, 1011762864925013274494852297130599501867585110017, 1811633, 1289979, 1821068) := by rfl
theorem gfPChunk128 : gfP 9 4 206057669517546204297910035632086015687 500 2011160269067283337843286974671650899884872040449 1011762864925013274494852297130599501867585110017 1811633 1289979 1821068 = (636317268170464237667542318861830341031817641985, 859638027650673950312217304430704247345508253697, 1826736, 1300949, 1835878) := by rfl
theorem gfPChunk129 : gfP 9 4 206057669517546204297910035632086015687 500 636317268170464237667542318861830341031817641985 859638027650673950312217304430704247345508253697 1826736 1300949 1835878 = (1018502689719221787374577200761473952715936628737, 697324298086601215207067338917035878408681160705, 1840650, 1311494, 1850692) := by rfl
theorem gfPChunk130 : gfP 9 4 206057669517546204297910035632086015687 500 1018502689719221787374577200761473952715936628737 697324298086601215207067338917035878408681160705 1840650 1311494 1850692 = (2869154563755122052442855200693554030962767036417, 107291680814397366635665895480023121452351881217, 1855718, 1322174, 1864398) := by rfl
theorem gfPChunk131 : gfP 9 4 206057669517546204297910035632086015687 500 2869154563755122052442855200693554030962767036417 107291680814397366635665895480023121452351881217 1855718 1322174 1864398 = (2148156545995808250626944684006277116880914219009, 2211118207108577763501185919415983836533419409409, 1870632, 1332681, 1878191) := by rfl
theorem gfPChunk132 : gfP 9 4 206057669517546204297910035632086015687 500 2148156545995808250626944684006277116880914219009 2211118207108577763501185919415983836533419409409 1870632 1332681 1878191 = (180710759918619881265145988617254333273499238401, 1125694868418351836918438328205920477287511228417, 1884022, 1342383, 1892580) := by rfl
theorem gfPChunk133 : gfP 9 4 206057669517546204297910035632086015687 500 180710759918619881265145988617254333273499238401 1125694868418351836918438328205920477287511228417 1884022 1342383 1892580 = (227417423705314395405331106675013180904626454529, 1269134777555614696645107766155318908875245092865, 1898686, 1352940, 1907218) := by rfl
theorem gfPChunk134 : gfP 9 4 206057669517546204297910035632086015687 500 227417423705314395405331106675013180904626454529 1269134777555614696645107766155318908875245092865 1898686 1352940 1907218 = (2606053241446220998471837450259063058411668111361, 1077326038127416396085515385139854734206219321345, 1912841, 1362593, 1920912) := by rfl
theorem gfPChunk135 : gfP 9 4 206057669517546204297910035632086015687 500 2606053241446220998471837450259063058411668111361 1077326038127416396085515385139854734206219321345 1912841 1362593 1920912 = (2589612639370329313521965071691788100909966295041, 630861367725575693741676059514308539041741537281, 1927974, 1372748, 1934737) := by rfl
theorem gfPChunk136 : gfP 9 4 206057669517546204297910035632086015687 500 2589612639370329313521965071691788100909966295041 630861367725575693741676059514308539041741537281 1927974 1372748 1934737 = (2407739814131857559505812116861058564812814942209, 754527867361596246034553176493668467432153415681, 1942359, 1382709, 1948168) := by rfl
theorem gfPChunk137 : gfP 9 4 206057669517546204297910035632086015687 500 2407739814131857559505812116861058564812814942209 754527867361596246034553176493668467432153415681 1942359 1382709 1948168 = (1558882461892356175820445266924933610212786438145, 385080648655282056849348757161957974623322636289, 1956010, 1393110, 1963623) := by rfl
theorem gfPChunk138 : gfP 9 4 206057669517546204297910035632086015687 500 1558882461892356175820445266924933610212786438145 385080648655282056849348757161957974623322636289 1956010 1393110 1963623 = (1178515528518143632177410728572921505138979373057, 254276817757852470547449041707797131969182040065, 1970288, 1402971, 1977918) := by rfl
theorem gfPChunk139 : gfP 9 4 206057669517546204297910035632086015687 500 1178515528518143632177410728572921505138979373057 254276817757852470547449041707797131969182040065 1970288 1402971 1977918 = (1196295616211447020043232093535191878735239315457, 2365862102749290809028036138402672506850527674369, 1984411, 1412462, 1991408) := by rfl
theorem gfPChunk140 : gfP 9 4 206057669517546204297910035632086015687 500 1196295616211447020043232093535191878735239315457 2365862102749290809028036138402672506850527674369 1984411 1412462 1991408 = (671681951080162300395385081000157366598689095681, 1502530262980123319134884649626121443447924588545, 1999320, 1423376, 2006429) := by rfl
theorem gfPChunk141 : gfP 9 4 206057669517546204297910035632086015687 500 671681951080162300395385081000157366598689095681 1502530262980123319134884649626121443447924588545 1999320 1423376 2006429 = (2869816027853023862764682083526215159032806637569, 50050328926950846181690505339424290351771287553, 2014122, 1433656, 2020922) := by rfl
theorem gfPChunk142 : gfP 9 4 206057669517546204297910035632086015687 500 2869816027853023862764682083526215159032806637569 50050328926950846181690505339424290351771287553 2014122 1433656 2020922 = (854203003039091803468746619082386254144351502337, 2619405944874584784649601888646661770185499738113, 2028946, 1444460, 2036111) := by rfl
theorem gfPChunk143 : gfP 9 4 206057669517546204297910035632086015687 500 854203003039091803468746619082386254144351502337 2619405944874584784649601888646661770185499738113 2028946 1444460 2036111 = (108104922592538071589661160673482219933789061121, 1274294483063287056745208736501487691205993037825, 2043552, 1454647, 2050388) := by rfl
theorem gfPChunk144 : gfP 9 4 206057669517546204297910035632086015687 500 108104922592538071589661160673482219933789061121 1274294483063287056745208736501487691205993037825 2043552 1454647 2050388 = (1917147030284912875784143037004597217049450643457, 2529463345047327497803800774426845471387166965761, 2057250, 1464734, 2064417) := by rfl
theorem gfPChunk145 : gfP 9 4 206057669517546204297910035632086015687 500 1917147030284912875784143037004597217049450643457 2529463345047327497803800774426845471387166965761 2057250 1464734 2064417 = (1083891017745211500319546580633958319041418362881, 1800798069377370286339113041569680550983416938497, 2070287, 1473957, 2079054) := by rfl
theorem gfPChunk146 : gfP 9 4 206057669517546204297910035632086015687 500 1083891017745211500319546580633958319041418362881 1800798069377370286339113041569680550983416938497 2070287 1473957 2079054 = (1626703291996126198929416534376954115065120817153, 307098201680648278152596895776794803881040150529, 2084937, 1484114, 2092786) := by rfl
theorem gfPChunk147 : gfP 9 4 206057669517546204297910035632086015687 500 1626703291996126198929416534376954115065120817153 307098201680648278152596895776794803881040150529 2084937 1484114 2092786 = (1167806364784445913491272802937800917386449125377, 407446165468865642548875765221001399505690558465, 2098110, 1493246, 2106323) := by rfl
theorem gfPChunk148 : gfP 9 4 206057669517546204297910035632086015687 500 1167806364784445913491272802937800917386449125377 407446165468865642548875765221001399505690558465 2098110 1493246 2106323 = (302827320228662943733749289887383569057798160385, 492405687648607393578158372935679764760413339649, 2113501, 1503807, 2121178) := by rfl
theorem gfPChunk149 : gfP 9 4 206057669517546204297910035632086015687 500 302827320228662943733749289887383569057798160385 492405687648607393578158372935679764760413339649 2113501 1503807 2121178 = (1552312948218488843868100622676859476311489380353, 244983444159567127545732350982525224324406706177, 2127768, 1514120, 2135262) := by rfl
theorem gfPChunk150 : gfP 9 4 206057669517546204297910035632086015687 500 1552312948218488843868100622676859476311489380353 244983444159567127545732350982525224324406706177 2127768 1514120 2135262 = (464672146747725831381215277178317904710979289089, 445154464768835448133177839081345006504769486849, 2141649, 1524043, 2149999) := by rfl
theorem gfPChunk151 : gfP 9 4 206057669517546204297910035632086015687 500 464672146747725831381215277178317904710979289089 445154464768835448133177839081345006504769486849 2141649 1524043 2149999 = (1205129080410180536608314744024716887194087718913, 2340768253418296278533629202653709445297459953665, 2155366, 1534281, 2164396) := by rfl
theorem gfPChunk152 : gfP 9 4 206057669517546204297910035632086015687 500 1205129080410180536608314744024716887194087718913 2340768253418296278533629202653709445297459953665 2155366 1534281 2164396 = (1018707871161298288871333340964579462643357581313, 373507830451095625857431998068189276342627336193, 2168961, 1543013, 2177197) := by rfl
theorem gfPChunk153 : gfP 9 4 206057669517546204297910035632086015687 500 1018707871161298288871333340964579462643357581313 373507830451095625857431998068189276342627336193 2168961 1543013 2177197 = (1579370290877155592609160805124734449652563181569, 1990744999288925599700648926679383066973875208193, 2183165, 1552791, 2190851) := by rfl
theorem gfPChunk154 : gfP 9 4 206057669517546204297910035632086015687 500 1579370290877155592609160805124734449652563181569 1990744999288925599700648926679383066973875208193 2183165 1552791 2190851 = (522946240615057155056758783449993609559513497601, 1208557762043139705011787456270871797472836976641, 2197421, 1562557, 2204261) := by rfl
theorem gfPChunk155 : gfP 9 4 206057669517546204297910035632086015687 500 522946240615057155056758783449993609559513497601 1208557762043139705011787456270871797472836976641 2197421 1562557 2204261 = (182042412031529124161885830077919478007757537281, 1705694133313652426063960974398451351015263305729, 2211901, 1572606, 2218262) := by rfl
theorem gfPChunk156 : gfP 9 4 206057669517546204297910035632086015687 500 182042412031529124161885830077919478007757537281 1705694133313652426063960974398451351015263305729 2211901 1572606 2218262 = (2030702810107133476931445894753286711064137826305, 1500634614961858817863775949046903981183898484737, 2226525, 1582571, 2232156) := by rfl
theorem gfPChunk157 : gfP 9 4 206057669517546204297910035632086015687 500 2030702810107133476931445894753286711064137826305 1500634614961858817863775949046903981183898484737 2226525 1582571 2232156 = (719769305496247441594032918240091268433273946113, 811846920694370889126705304382127418258063622145, 2240988, 1592659, 2245661) := by rfl
theorem gfPChunk158 : gfP 9 4 206057669517546204297910035632086015687 500 719769305496247441594032918240091268433273946113 811846920694370889126705304382127418258063622145 2240988 1592659 2245661 = (1735143669530780026644254685487111487532719669249, 268924917447832905094621441277200882356589690881, 2255474, 1602908, 2259479) := by rfl
theorem gfPChunk159 : gfP 9 4 206057669517546204297910035632086015687 500 1735143669530780026644254685487111487532719669249 268924917447832905094621441277200882356589690881 2255474 1602908 2259479 = (1638914110276001543826965827175406208988208955393, 25542195268493626485169044532473606449867522049, 2269408, 1612503, 2273577) := by rfl
theorem gfPChunk160 : gfP 9 4 206057669517546204297910035632086015687 500 1638914110276001543826965827175406208988208955393 25542195268493626485169044532473606449867522049 2269408 1612503 2273577 = (150187253101035089382332169352403689399132356609, 2334445096452007557073480963029744105507698769921, 2283635, 1622538, 2288152) := by rfl
theorem gfPChunk161 : gfP 9 4 206057669517546204297910035632086015687 500 150187253101035089382332169352403689399132356609 2334445096452007557073480963029744105507698769921 2283635 1622538 2288152 = (904978436109224326821741208455653020082192252929, 1102401637632552715791889774814698149008287727617, 2297547, 1632168, 2302095) := by rfl
theorem gfPChunk162 : gfP 9 4 206057669517546204297910035632086015687 500 904978436109224326821741208455653020082192252929 1102401637632552715791889774814698149008287727617 2297547 1632168 2302095 = (826492650133124688377819820698643627953868505089, 180185531480858290804689953719440867009853652993, 2311170, 1642112, 2316788) := by rfl
theorem gfPChunk163 : gfP 9 4 206057669517546204297910035632086015687 500 826492650133124688377819820698643627953868505089 180185531480858290804689953719440867009853652993 2311170 1642112 2316788 = (1653548999996347979213130059986817361445430231041, 2204467992934558372426197249891556548085226143745, 2324708, 1651940, 2331112) := by rfl
theorem gfPChunk164 : gfP 9 4 206057669517546204297910035632086015687 500 1653548999996347979213130059986817361445430231041 2204467992934558372426197249891556548085226143745 2324708 1651940 2331112 = (1787324197101779036896635030907388567712033669121, 882833869847994007151771445840877112501513224193, 2340621, 1663145, 2345875) := by rfl
theorem gfPChunk165 : gfP 9 4 206057669517546204297910035632086015687 500 1787324197101779036896635030907388567712033669121 882833869847994007151771445840877112501513224193 2340621 1663145 2345875 = (1411421101800814224982226826699252264584418951169, 447288909592847363662664153250074821535192842241, 2354834, 1673756, 2360189) := by rfl
theorem gfPChunk166 : gfP 9 4 206057669517546204297910035632086015687 500 1411421101800814224982226826699252264584418951169 447288909592847363662664153250074821535192842241 2354834 1673756 2360189 = (1899931325721717262887527154254381290550177300481, 634719590136809939822082992002802748503502094337, 2369839, 1683971, 2373939) := by rfl
theorem gfPChunk167 : gfP 9 4 206057669517546204297910035632086015687 500 1899931325721717262887527154254381290550177300481 634719590136809939822082992002802748503502094337 2369839 1683971 2373939 = (245099663405944768703983239328837341250796388353, 907717385664361753094738843064789896405381545985, 2383263, 1693177, 2387500) := by rfl
theorem gfPChunk168 : gfP 9 4 206057669517546204297910035632086015687 500 245099663405944768703983239328837341250796388353 907717385664361753094738843064789896405381545985 2383263 1693177 2387500 = (870598343409172389538078837579079067443073646593, 1750585387846803386781667489544974366671519088641, 2397635, 1703146, 2401269) := by rfl
theorem gfPChunk169 : gfP 9 4 206057669517546204297910035632086015687 500 870598343409172389538078837579079067443073646593 1750585387846803386781667489544974366671519088641 2397635 1703146 2401269 = (638480933524485985862193482172563726786547941377, 652392344773752507606485589479084417490410799105, 2412181, 1714109, 2416758) := by rfl
theorem gfPChunk170 : gfP 9 4 206057669517546204297910035632086015687 500 638480933524485985862193482172563726786547941377 652392344773752507606485589479084417490410799105 2412181 1714109 2416758 = (706010007008591128362511284729136803250727550977, 1980187222693926670672731921282717677603891707905, 2427500, 1724410, 2430254) := by rfl
theorem gfPChunk171 : gfP 9 4 206057669517546204297910035632086015687 500 706010007008591128362511284729136803250727550977 1980187222693926670672731921282717677603891707905 2427500 1724410 2430254 = (1683623148218916714697414398906381345554713018369, 2766477971811443122648916128463681933342733762561, 2441879, 1734482, 2444723) := by rfl
theorem gfPChunk172 : gfP 9 4 206057669517546204297910035632086015687 500 1683623148218916714697414398906381345554713018369 2766477971811443122648916128463681933342733762561 2441879 1734482 2444723 = (1579570469111599953517343588399284656015325265921, 2324299723741563907092194067763546124190115430401, 2456830, 1745107, 2458730) := by rfl
theorem gfPChunk173 : gfP 9 4 206057669517546204297910035632086015687 500 1579570469111599953517343588399284656015325265921 2324299723741563907092194067763546124190115430401 2456830 1745107 2458730 = (1373742268443395708480135682774135472257520107521, 731632605333207335539655052139054603180833767425, 2470760, 1754923, 2473205) := by rfl
theorem gfPChunk174 : gfP 9 4 206057669517546204297910035632086015687 500 1373742268443395708480135682774135472257520107521 731632605333207335539655052139054603180833767425 2470760 1754923 2473205 = (548781596677180264506180012100530362440587673601, 1904521033396521349187003896983420659050355884033, 2485598, 1765550, 2488086) := by rfl
theorem gfPChunk175 : gfP 9 4 206057669517546204297910035632086015687 500 548781596677180264506180012100530362440587673601 1904521033396521349187003896983420659050355884033 2485598 1765550 2488086 = (1368927368945490815654131227178199307473676926977, 886951999568217422457886350177296436289247117313, 2499039, 1774522, 2500805) := by rfl
theorem gfPChunk176 : gfP 9 4 206057669517546204297910035632086015687 500 1368927368945490815654131227178199307473676926977 886951999568217422457886350177296436289247117313 2499039 1774522 2500805 = (1094021739800792123914216074544954137546286170113, 1364401735969864215893937951355585128337940414465, 2514013, 1785127, 2514903) := by rfl
theorem gfPChunk177 : gfP 9 4 206057669517546204297910035632086015687 500 1094021739800792123914216074544954137546286170113 1364401735969864215893937951355585128337940414465 2514013 1785127 2514903 = (18171975421625686889261356845982456265213739009, 820833321369715506026129794692697559875696197633, 2528248, 1795158, 2528826) := by rfl
theorem gfPChunk178 : gfP 9 4 206057669517546204297910035632086015687 500 18171975421625686889261356845982456265213739009 820833321369715506026129794692697559875696197633 2528248 1795158 2528826 = (1450249639574388262341420980412622309140341981185, 1740181873394577582899022196608048286324209221633, 2542420, 1805548, 2543284) := by rfl
theorem gfPChunk179 : gfP 9 4 206057669517546204297910035632086015687 500 1450249639574388262341420980412622309140341981185 1740181873394577582899022196608048286324209221633 2542420 1805548 2543284 = (761983965752623556792797955761540887320264179713, 1395854640933405964811751362391347118927241019393, 2556879, 1815969, 2557112) := by rfl
theorem gfPChunk180 : gfP 9 4 206057669517546204297910035632086015687 500 761983965752623556792797955761540887320264179713 1395854640933405964811751362391347118927241019393 2556879 1815969 2557112 = (1207082984310352374170656714158894782054368542721, 1536575459841939526465271585222527669858400731137, 2571078, 1825796, 2571055) := by rfl
theorem gfPChunk181 : gfP 9 4 206057669517546204297910035632086015687 500 1207082984310352374170656714158894782054368542721 1536575459841939526465271585222527669858400731137 2571078 1825796 2571055 = (2812547355761397527157277460426682641072024190977, 25458539768318046990568260312344647013484199937, 2586569, 1836456, 2585067) := by rfl
theorem gfPChunk182 : gfP 9 4 206057669517546204297910035632086015687 500 2812547355761397527157277460426682641072024190977 25458539768318046990568260312344647013484199937 2586569 1836456 2585067 = (1566704369236719174062436434183221226026024566785, 1414002691321121356663863504222223935020493438977, 2601014, 1847270, 2599868) := by rfl
theorem gfPChunk183 : gfP 9 4 206057669517546204297910035632086015687 500 1566704369236719174062436434183221226026024566785 1414002691321121356663863504222223935020493438977 2601014 1847270 2599868 = (969008114648885880902736833355975148810310516737, 145973294641715466462261340650720400383500353537, 2615266, 1857300, 2613621) := by rfl
theorem gfPChunk184 : gfP 9 4 206057669517546204297910035632086015687 500 969008114648885880902736833355975148810310516737 145973294641715466462261340650720400383500353537 2615266 1857300 2613621 = (2815114124911228753914422459005147262813313433601, 2121818298827849384182347976418015853693907238913, 2629060, 1866547, 2627381) := by rfl
theorem gfPChunk185 : gfP 9 4 206057669517546204297910035632086015687 500 2815114124911228753914422459005147262813313433601 2121818298827849384182347976418015853693907238913 2629060 1866547 2627381 = (1493996743815187125803620205025733659143006322689, 944649816260866376475973225826892826539412422657, 2642353, 1876309, 2642424) := by rfl
theorem gfPChunk186 : gfP 9 4 206057669517546204297910035632086015687 500 1493996743815187125803620205025733659143006322689 944649816260866376475973225826892826539412422657 2642353 1876309 2642424 = (931398034552605121682409660808696745044540915713, 1268449548591835854904659312057828224314376193, 2655805, 1885767, 2656327) := by rfl
theorem gfPChunk187 : gfP 9 4 206057669517546204297910035632086015687 500 931398034552605121682409660808696745044540915713 1268449548591835854904659312057828224314376193 2655805 1885767 2656327 = (2454138652307191095911704008133597111766745088001, 52192853957907428816875305297264487009976582145, 2669124, 1895589, 2671357) := by rfl
theorem gfPChunk188 : gfP 9 4 206057669517546204297910035632086015687 500 2454138652307191095911704008133597111766745088001 52192853957907428816875305297264487009976582145 2669124 1895589 2671357 = (1011929088366168241022978362249061775597478346753, 911961427187264252822484524221381412038757056513, 2683270, 1905247, 2684795) := by rfl
theorem gfPChunk189 : gfP 9 4 206057669517546204297910035632086015687 500 1011929088366168241022978362249061775597478346753 911961427187264252822484524221381412038757056513 2683270 1905247 2684795 = (1567089578421419882604599134236217695260259647489, 2761080921387787440505408831688979464114547982337, 2697522, 1914887, 2698212) := by rfl
theorem gfPChunk190 : gfP 9 4 206057669517546204297910035632086015687 500 1567089578421419882604599134236217695260259647489 2761080921387787440505408831688979464114547982337 2697522 1914887 2698212 = (1308771197034801075327132453950326607978138959873, 2093598511187092992983842886160323566474432086017, 2712091, 1925801, 2713642) := by rfl
theorem gfPChunk191 : gfP 9 4 206057669517546204297910035632086015687 500 1308771197034801075327132453950326607978138959873 2093598511187092992983842886160323566474432086017 2712091 1925801 2713642 = (2748442608712603950534912315794534488265554132993, 2894315112785272172329758565822565909264536174593, 2726298, 1935901, 2727831) := by rfl
theorem gfPChunk192 : gfP 9 4 206057669517546204297910035632086015687 500 2748442608712603950534912315794534488265554132993 2894315112785272172329758565822565909264536174593 2726298 1935901 2727831 = (568562991631323647553957547610751109209417318401, 710785214933063679160324295667833281735462748161, 2739918, 1945313, 2741130) := by rfl
theorem gfPChunk193 : gfP 9 4 206057669517546204297910035632086015687 500 568562991631323647553957547610751109209417318401 710785214933063679160324295667833281735462748161 2739918 1945313 2741130 = (2504550397814545291501033601923408619053760118785, 1600410399359256696653021228056873892765688135681, 2754048, 1955678, 2755676) := by rfl
theorem gfPChunk194 : gfP 9 4 206057669517546204297910035632086015687 500 2504550397814545291501033601923408619053760118785 1600410399359256696653021228056873892765688135681 2754048 1955678 2755676 = (2598042601899407363953374800298986675199713214465, 2772072661288432135197834858866991212227035398145, 2768061, 1965813, 2770434) := by rfl
theorem gfPChunk195 : gfP 9 4 206057669517546204297910035632086015687 500 2598042601899407363953374800298986675199713214465 2772072661288432135197834858866991212227035398145 2768061 1965813 2770434 = (670336122252481870943785007353499103127010279425, 1960493578958341139367967569007226681407909658625, 2782484, 1975705, 2783650) := by rfl
theorem gfPChunk196 : gfP 9 4 206057669517546204297910035632086015687 500 670336122252481870943785007353499103127010279425 1960493578958341139367967569007226681407909658625 2782484 1975705 2783650 = (2899603673797243599479332300817073054830722809857, 646967417998885580381962861417337563784832614401, 2797467, 1985738, 2797260) := by rfl
theorem gfPChunk197 : gfP 9 4 206057669517546204297910035632086015687 500 2899603673797243599479332300817073054830722809857 646967417998885580381962861417337563784832614401 2797467 1985738 2797260 = (2900838793178429448813596562826738607310722039809, 764530709844929503429516006721778988738118942721, 2812579, 1996320, 2811482) := by rfl
theorem gfPChunk198 : gfP 9 4 206057669517546204297910035632086015687 500 2900838793178429448813596562826738607310722039809 764530709844929503429516006721778988738118942721 2812579 1996320 2811482 = (1007535018236568944465406080963044598575376891905, 18071199893280296369890419064998568070750404609, 2826957, 2006296, 2825919) := by rfl
theorem gfPChunk199 : gfP 9 4 206057669517546204297910035632086015687 500 1007535018236568944465406080963044598575376891905 18071199893280296369890419064998568070750404609 2826957 2006296 2825919 = (529378151190692050937065971668118770647352475649, 2122697293921918289065391952259254254099775881217, 2842216, 2016906, 2840381) := by rfl

theorem gfPMile0 : gfP 9 4 206057669517546204297910035632086015687 5000 2426436542518352812696729274283803142745814466561 529378151190692050937065971668118770647352475649 0 0 0 = (731447641614092523773243845757644995678928109569, 1959507111209802601932178583332502753616381083649, 143596, 100349, 140731) := by
  have h0 := gfPChunk0
  have h1 := gfP_chain h0 gfPChunk1
  have h2 := gfP_chain h1 gfPChunk2
  have h3 := gfP_chain h2 gfPChunk3
  have h4 := gfP_chain h3 gfPChunk4
  have h5 := gfP_chain h4 gfPChunk5
  have h6 := gfP_chain h5 gfPChunk6
  have h7 := gfP_chain h6 gfPChunk7
  have h8 := gfP_chain h7 gfPChunk8
  have h9 := gfP_chain h8 gfPChunk9
  exact h9

theorem gfPMile1 : gfP 9 4 206057669517546204297910035632086015687 5000 731447641614092523773243845757644995678928109569 1959507111209802601932178583332502753616381083649 143596 100349 140731 = (916638349482444055881059278640690701116404400129, 885822399256738520698590376782445972387683893249, 288497, 202119, 282979) := by
  have h0 := gfPChunk10
  have h1 := gfP_chain h0 gfPChunk11
  have h2 := gfP_chain h1 gfPChunk12
  have h3 := gfP_chain h2 gfPChunk13
  have h4 := gfP_chain h3 gfPChunk14
  have h5 := gfP_chain h4 gfPChunk15
  have h6 := gfP_chain h5 gfPChunk16
  have h7 := gfP_chain h6 gfPChunk17
  have h8 := gfP_chain h7 gfPChunk18
  have h9 := gfP_chain h8 gfPChunk19
  exact h9

theorem gfPMile2 : gfP 9 4 206057669517546204297910035632086015687 5000 916638349482444055881059278640690701116404400129 885822399256738520698590376782445972387683893249 288497 202119 282979 = (2754922794610826045432457088949457767685205000193, 1185497247896144609119385035604582194672813735937, 426129, 300771, 424974) := by
  have h0 := gfPChunk20
  have h1 := gfP_chain h0 gfPChunk21
  have h2 := gfP_chain h1 gfPChunk22
  have h3 := gfP_chain h2 gfPChunk23
  have h4 := gfP_chain h3 gfPChunk24
  have h5 := gfP_chain h4 gfPChunk25
  have h6 := gfP_chain h5 gfPChunk26
  have h7 := gfP_chain h6 gfPChunk27
  have h8 := gfP_chain h7 gfPChunk28
  have h9 := gfP_chain h8 gfPChunk29
  exact h9

theorem gfPMile3 : gfP 9 4 206057669517546204297910035632086015687 5000 2754922794610826045432457088949457767685205000193 1185497247896144609119385035604582194672813735937 426129 300771 424974 = (173905034350276029044962221955061260231943127041, 904707954390388282502710114471137362992374480897, 570141, 405263, 571295) := by
  have h0 := gfPChunk30
  have h1 := gfP_chain h0 gfPChunk31
  have h2 := gfP_chain h1 gfPChunk32
  have h3 := gfP_chain h2 gfPChunk33
  have h4 := gfP_chain h3 gfPChunk34
  have h5 := gfP_chain h4 gfPChunk35
  have h6 := gfP_chain h5 gfPChunk36
  have h7 := gfP_chain h6 gfPChunk37
  have h8 := gfP_chain h7 gfPChunk38
  have h9 := gfP_chain h8 gfPChunk39
  exact h9

theorem gfPMile4 : gfP 9 4 206057669517546204297910035632086015687 5000 173905034350276029044962221955061260231943127041 904707954390388282502710114471137362992374480897 570141 405263 571295 = (2364224211534733944857538225894869472645822283777, 945017863861346206650742659800243442068957954049, 713853, 508049, 714649) := by
  have h0 := gfPChunk40
  have h1 := gfP_chain h0 gfPChunk41
  have h2 := gfP_chain h1 gfPChunk42
  have h3 := gfP_chain h2 gfPChunk43
  have h4 := gfP_chain h3 gfPChunk44
  have h5 := gfP_chain h4 gfPChunk45
  have h6 := gfP_chain h5 gfPChunk46
  have h7 := gfP_chain h6 gfPChunk47
  have h8 := gfP_chain h7 gfPChunk48
  have h9 := gfP_chain h8 gfPChunk49
  exact h9

theorem gfPMile5 : gfP 9 4 206057669517546204297910035632086015687 5000 2364224211534733944857538225894869472645822283777 945017863861346206650742659800243442068957954049 713853 508049 714649 = (2658734903477794831371725173281250629745188536321, 410912730194127413313742244499386738298541047809, 854134, 606379, 854910) := by
  have h0 := gfPChunk50
  have h1 := gfP_chain h0 gfPChunk51
  have h2 := gfP_chain h1 gfPChunk52
  have h3 := gfP_chain h2 gfPChunk53
  have h4 := gfP_chain h3 gfPChunk54
  have h5 := gfP_chain h4 gfPChunk55
  have h6 := gfP_chain h5 gfPChunk56
  have h7 := gfP_chain h6 gfPChunk57
  have h8 := gfP_chain h7 gfPChunk58
  have h9 := gfP_chain h8 gfPChunk59
  exact h9

theorem gfPMile6 : gfP 9 4 206057669517546204297910035632086015687 5000 2658734903477794831371725173281250629745188536321 410912730194127413313742244499386738298541047809 854134 606379 854910 = (1308783079349615273851982997892298204852179173377, 994670904990190779131432555968843064852518797313, 992442, 704955, 995973) := by
  have h0 := gfPChunk60
  have h1 := gfP_chain h0 gfPChunk61
  have h2 := gfP_chain h1 gfPChunk62
  have h3 := gfP_chain h2 gfPChunk63
  have h4 := gfP_chain h3 gfPChunk64
  have h5 := gfP_chain h4 gfPChunk65
  have h6 := gfP_chain h5 gfPChunk66
  have h7 := gfP_chain h6 gfPChunk67
  have h8 := gfP_chain h7 gfPChunk68
  have h9 := gfP_chain h8 gfPChunk69
  exact h9

theorem gfPMile7 : gfP 9 4 206057669517546204297910035632086015687 5000 1308783079349615273851982997892298204852179173377 994670904990190779131432555968843064852518797313 992442 704955 995973 = (1811856864496200122480389043843571467381446279169, 1014654955633721671729441720853764224474794688513, 1136602, 805714, 1134881) := by
  have h0 := gfPChunk70
  have h1 := gfP_chain h0 gfPChunk71
  have h2 := gfP_chain h1 gfPChunk72
  have h3 := gfP_chain h2 gfPChunk73
  have h4 := gfP_chain h3 gfPChunk74
  have h5 := gfP_chain h4 gfPChunk75
  have h6 := gfP_chain h5 gfPChunk76
  have h7 := gfP_chain h6 gfPChunk77
  have h8 := gfP_chain h7 gfPChunk78
  have h9 := gfP_chain h8 gfPChunk79
  exact h9

theorem gfPMile8 : gfP 9 4 206057669517546204297910035632086015687 5000 1811856864496200122480389043843571467381446279169 1014654955633721671729441720853764224474794688513 1136602 805714 1134881 = (2097694599865591566283886744066024728663592796161, 992070431161286812938104262299089587783008780289, 1277962, 905752, 1276822) := by
  have h0 := gfPChunk80
  have h1 := gfP_chain h0 gfPChunk81
  have h2 := gfP_chain h1 gfPChunk82
  have h3 := gfP_chain h2 gfPChunk83
  have h4 := gfP_chain h3 gfPChunk84
  have h5 := gfP_chain h4 gfPChunk85
  have h6 := gfP_chain h5 gfPChunk86
  have h7 := gfP_chain h6 gfPChunk87
  have h8 := gfP_chain h7 gfPChunk88
  have h9 := gfP_chain h8 gfPChunk89
  exact h9

theorem gfPMile9 : gfP 9 4 206057669517546204297910035632086015687 5000 2097694599865591566283886744066024728663592796161 992070431161286812938104262299089587783008780289 1277962 905752 1276822 = (2400425890512406664297555903814525018401176289281, 2134640380664072504026494590585567808983767449601, 1419055, 1008172, 1420577) := by
  have h0 := gfPChunk90
  have h1 := gfP_chain h0 gfPChunk91
  have h2 := gfP_chain h1 gfPChunk92
  have h3 := gfP_chain h2 gfPChunk93
  have h4 := gfP_chain h3 gfPChunk94
  have h5 := gfP_chain h4 gfPChunk95
  have h6 := gfP_chain h5 gfPChunk96
  have h7 := gfP_chain h6 gfPChunk97
  have h8 := gfP_chain h7 gfPChunk98
  have h9 := gfP_chain h8 gfPChunk99
  exact h9

theorem gfPMile10 : gfP 9 4 206057669517546204297910035632086015687 5000 2400425890512406664297555903814525018401176289281 2134640380664072504026494590585567808983767449601 1419055 1008172 1420577 = (1872815640735546498094448943709182584337876385793, 1275176927940069167966579769743269287307383930881, 1559736, 1108952, 1562836) := by
  have h0 := gfPChunk100
  have h1 := gfP_chain h0 gfPChunk101
  have h2 := gfP_chain h1 gfPChunk102
  have h3 := gfP_chain h2 gfPChunk103
  have h4 := gfP_chain h3 gfPChunk104
  have h5 := gfP_chain h4 gfPChunk105
  have h6 := gfP_chain h5 gfPChunk106
  have h7 := gfP_chain h6 gfPChunk107
  have h8 := gfP_chain h7 gfPChunk108
  have h9 := gfP_chain h8 gfPChunk109
  exact h9

theorem gfPMile11 : gfP 9 4 206057669517546204297910035632086015687 5000 1872815640735546498094448943709182584337876385793 1275176927940069167966579769743269287307383930881 1559736 1108952 1562836 = (336554616304247288386824449866092020414143266817, 975711135059734688780816958611021452787486556161, 1699542, 1210373, 1707432) := by
  have h0 := gfPChunk110
  have h1 := gfP_chain h0 gfPChunk111
  have h2 := gfP_chain h1 gfPChunk112
  have h3 := gfP_chain h2 gfPChunk113
  have h4 := gfP_chain h3 gfPChunk114
  have h5 := gfP_chain h4 gfPChunk115
  have h6 := gfP_chain h5 gfPChunk116
  have h7 := gfP_chain h6 gfPChunk117
  have h8 := gfP_chain h7 gfPChunk118
  have h9 := gfP_chain h8 gfPChunk119
  exact h9

theorem gfPMile12 : gfP 9 4 206057669517546204297910035632086015687 5000 336554616304247288386824449866092020414143266817 975711135059734688780816958611021452787486556161 1699542 1210373 1707432 = (1018502689719221787374577200761473952715936628737, 697324298086601215207067338917035878408681160705, 1840650, 1311494, 1850692) := by
  have h0 := gfPChunk120
  have h1 := gfP_chain h0 gfPChunk121
  have h2 := gfP_chain h1 gfPChunk122
  have h3 := gfP_chain h2 gfPChunk123
  have h4 := gfP_chain h3 gfPChunk124
  have h5 := gfP_chain h4 gfPChunk125
  have h6 := gfP_chain h5 gfPChunk126
  have h7 := gfP_chain h6 gfPChunk127
  have h8 := gfP_chain h7 gfPChunk128
  have h9 := gfP_chain h8 gfPChunk129
  exact h9

theorem gfPMile13 : gfP 9 4 206057669517546204297910035632086015687 5000 1018502689719221787374577200761473952715936628737 697324298086601215207067338917035878408681160705 1840650 1311494 1850692 = (1196295616211447020043232093535191878735239315457, 2365862102749290809028036138402672506850527674369, 1984411, 1412462, 1991408) := by
  have h0 := gfPChunk130
  have h1 := gfP_chain h0 gfPChunk131
  have h2 := gfP_chain h1 gfPChunk132
  have h3 := gfP_chain h2 gfPChunk133
  have h4 := gfP_chain h3 gfPChunk134
  have h5 := gfP_chain h4 gfPChunk135
  have h6 := gfP_chain h5 gfPChunk136
  have h7 := gfP_chain h6 gfPChunk137
  have h8 := gfP_chain h7 gfPChunk138
  have h9 := gfP_chain h8 gfPChunk139
  exact h9

theorem gfPMile14 : gfP 9 4 206057669517546204297910035632086015687 5000 1196295616211447020043232093535191878735239315457 2365862102749290809028036138402672506850527674369 1984411 1412462 1991408 = (1552312948218488843868100622676859476311489380353, 244983444159567127545732350982525224324406706177, 2127768, 1514120, 2135262) := by
  have h0 := gfPChunk140
  have h1 := gfP_chain h0 gfPChunk141
  have h2 := gfP_chain h1 gfPChunk142
  have h3 := gfP_chain h2 gfPChunk143
  have h4 := gfP_chain h3 gfPChunk144
  have h5 := gfP_chain h4 gfPChunk145
  have h6 := gfP_chain h5 gfPChunk146
  have h7 := gfP_chain h6 gfPChunk147
  have h8 := gfP_chain h7 gfPChunk148
  have h9 := gfP_chain h8 gfPChunk149
  exact h9

theorem gfPMile15 : gfP 9 4 206057669517546204297910035632086015687 5000 1552312948218488843868100622676859476311489380353 244983444159567127545732350982525224324406706177 2127768 1514120 2135262 = (1638914110276001543826965827175406208988208955393, 25542195268493626485169044532473606449867522049, 2269408, 1612503, 2273577) := by
  have h0 := gfPChunk150
  have h1 := gfP_chain h0 gfPChunk151
  have h2 := gfP_chain h1 gfPChunk152
  have h3 := gfP_chain h2 gfPChunk153
  have h4 := gfP_chain h3 gfPChunk154
  have h5 := gfP_chain h4 gfPChunk155
  have h6 := gfP_chain h5 gfPChunk156
  have h7 := gfP_chain h6 gfPChunk157
  have h8 := gfP_chain h7 gfPChunk158
  have h9 := gfP_chain h8 gfPChunk159
  exact h9

theorem gfPMile16 : gfP 9 4 206057669517546204297910035632086015687 5000 1638914110276001543826965827175406208988208955393 25542195268493626485169044532473606449867522049 2269408 1612503 2273577 = (638480933524485985862193482172563726786547941377, 652392344773752507606485589479084417490410799105, 2412181, 1714109, 2416758) := by
  have h0 := gfPChunk160
  have h1 := gfP_chain h0 gfPChunk161
  have h2 := gfP_chain h1 gfPChunk162
  have h3 := gfP_chain h2 gfPChunk163
  have h4 := gfP_chain h3 gfPChunk164
  have h5 := gfP_chain h4 gfPChunk165
  have h6 := gfP_chain h5 gfPChunk166
  have h7 := gfP_chain h6 gfPChunk167
  have h8 := gfP_chain h7 gfPChunk168
  have h9 := gfP_chain h8 gfPChunk169
  exact h9

theorem gfPMile17 : gfP 9 4 206057669517546204297910035632086015687 5000 638480933524485985862193482172563726786547941377 652392344773752507606485589479084417490410799105 2412181 1714109 2416758 = (761983965752623556792797955761540887320264179713, 1395854640933405964811751362391347118927241019393, 2556879, 1815969, 2557112) := by
  have h0 := gfPChunk170
  have h1 := gfP_chain h0 gfPChunk171
  have h2 := gfP_chain h1 gfPChunk172
  have h3 := gfP_chain h2 gfPChunk173
  have h4 := gfP_chain h3 gfPChunk174
  have h5 := gfP_chain h4 gfPChunk175
  have h6 := gfP_chain h5 gfPChunk176
  have h7 := gfP_chain h6 gfPChunk177
  have h8 := gfP_chain h7 gfPChunk178
  have h9 := gfP_chain h8 gfPChunk179
  exact h9

theorem gfPMile18 : gfP 9 4 206057669517546204297910035632086015687 5000 761983965752623556792797955761540887320264179713 1395854640933405964811751362391347118927241019393 2556879 1815969 2557112 = (1567089578421419882604599134236217695260259647489, 2761080921387787440505408831688979464114547982337, 2697522, 1914887, 2698212) := by
  have h0 := gfPChunk180
  have h1 := gfP_chain h0 gfPChunk181
  have h2 := gfP_chain h1 gfPChunk182
  have h3 := gfP_chain h2 gfPChunk183
  have h4 := gfP_chain h3 gfPChunk184
  have h5 := gfP_chain h4 gfPChunk185
  have h6 := gfP_chain h5 gfPChunk186
  have h7 := gfP_chain h6 gfPChunk187
  have h8 := gfP_chain h7 gfPChunk188
  have h9 := gfP_chain h8 gfPChunk189
  exact h9

theorem gfPMile19 : gfP 9 4 206057669517546204297910035632086015687 5000 1567089578421419882604599134236217695260259647489 2761080921387787440505408831688979464114547982337 2697522 1914887 2698212 = (529378151190692050937065971668118770647352475649, 2122697293921918289065391952259254254099775881217, 2842216, 2016906, 2840381) := by
  have h0 := gfPChunk190
  have h1 := gfP_chain h0 gfPChunk191
  have h2 := gfP_chain h1 gfPChunk192
  have h3 := gfP_chain h2 gfPChunk193
  have h4 := gfP_chain h3 gfPChunk194
  have h5 := gfP_chain h4 gfPChunk195
  have h6 := gfP_chain h5 gfPChunk196
  have h7 := gfP_chain h6 gfPChunk197
  have h8 := gfP_chain h7 gfPChunk198
  have h9 := gfP_chain h8 gfPChunk199
  exact h9

theorem gfP_run : gfP 9 4 206057669517546204297910035632086015687 100000 2426436542518352812696729274283803142745814466561 529378151190692050937065971668118770647352475649 0 0 0 = (529378151190692050937065971668118770647352475649, 2122697293921918289065391952259254254099775881217, 2842216, 2016906, 2840381) := by
  have h0 := gfPMile0
  have h1 := gfP_chain h0 gfPMile1
  have h2 := gfP_chain h1 gfPMile2
  have h3 := gfP_chain h2 gfPMile3
  have h4 := gfP_chain h3 gfPMile4
  have h5 := gfP_chain h4 gfPMile5
  have h6 := gfP_chain h5 gfPMile6
  have h7 := gfP_chain h6 gfPMile7
  have h8 := gfP_chain h7 gfPMile8
  have h9 := gfP_chain h8 gfPMile9
  have h10 := gfP_chain h9 gfPMile10
  have h11 := gfP_chain h10 gfPMile11
  have h12 := gfP_chain h11 gfPMile12
  have h13 := gfP_chain h12 gfPMile13
  have h14 := gfP_chain h13 gfPMile14
  have h15 := gfP_chain h14 gfPMile15
  have h16 := gfP_chain h15 gfPMile16
  have h17 := gfP_chain h16 gfPMile17
  have h18 := gfP_chain h17 gfPMile18
  have h19 := gfP_chain h18 gfPMile19
  exact h19

/-- C4: seed 8675309 with shape 2 by 100000 reproduces the scripts'
assertion literal. -/
theorem C4_regression_value :
    (ARR 4).map (fun M => my_func_dot (toIntMatrix M))
      = some [[2842216, 2016906], [2016906, 2840381]] := by
  have hg0 := gpack_gStart
  have hgN := gpack_gMid
  have heq := @gfP_eq 9 4 206057669517546204297910035632086015687 100000
    gStart gMid 0 0 0 hg0 hgN
  rw [packG_gStart, packG_gMid, gfP_run] at heq
  have hgf2 := gramFold_eq 9 4 100000 gStart gMid 0 0 0
  cases hgf : gramFold 9 4 100000 gStart gMid 0 0 0 with
  | none =>
    rw [hgf] at heq
    exact absurd heq (by decide)
  | some q =>
    rw [hgf] at heq
    rw [hgf] at hgf2
    cases hA : drawList 9 4 100000 gStart with
    | none => rw [hA] at hgf2; exact absurd hgf2 (by simp)
    | some pA =>
      obtain ⟨dsA, gA2⟩ := pA
      rw [hA] at hgf2
      cases hB : drawList 9 4 100000 gMid with
      | none => rw [hB] at hgf2; simp at hgf2
      | some pB =>
        obtain ⟨dsB, gB2⟩ := pB
        rw [hB] at hgf2
        simp only [Option.some_bind, Option.map_some', Option.some.injEq] at hgf2
        subst hgf2
        simp only [Prod.mk.injEq] at heq
        obtain ⟨h1, h2, h3, h4, h5⟩ := heq
        rw [Nat.zero_add] at h3 h4 h5
        have hA2 : GPack 206057669517546204297910035632086015687 gA2 :=
          drawList_gpack 100000 gStart hg0 (dsA, gA2) hA
        have hA2eq : gA2 = gMid := by
          refine packG_inj hA2 hgN ?_
          rw [← h1, packG_gMid]
        have hbA := drawList_bound 100000 gStart hg0.1 dsA gA2 hA
        have hwfMid : Gen32Wf gMid := hgN.1
        have hbB := drawList_bound 100000 gMid hwfMid dsB gB2 hB
        have hlenA : dsA.length = 100000 := hbA.2.1
        have hlenB : dsB.length = 100000 := hbB.2.1
        have happ := drawList_append 9 4 100000 100000 gStart
        rw [hA] at happ
        simp only [Option.some_bind] at happ
        rw [hA2eq, hB] at happ
        simp only [Option.map_some'] at happ
        simp only [ARR, npIntegers]
        rw [show (10:Nat) - 1 = 9 from rfl, show (2:Nat) * 100000 = 100000 + 100000 from rfl,
          gStart_eq, happ]
        simp only [Option.map_some']
        rw [reshapeRows_two]
        have htakeA : (dsA ++ dsB).take 100000 = dsA := by
          rw [← hlenA]
          exact List.take_left dsA dsB
        have hdropA : (dsA ++ dsB).drop 100000 = dsB := by
          rw [← hlenA]
          exact List.drop_left dsA dsB
        have htakeB : dsB.take 100000 = dsB := by
          rw [← hlenB]
          exact List.take_length dsB
        rw [htakeA, hdropA, htakeB]
        have hmat : toIntMatrix [dsA, dsB] = [dsA.map Int.ofNat, dsB.map Int.ofNat] := rfl
        have hrect : Rect (toIntMatrix [dsA, dsB]) 2 100000 := by
          rw [hmat]
          refine ⟨rfl, ?_⟩
          intro row hrow
          rcases List.mem_cons.mp hrow with rfl | hrow
          · simp [hlenA]
          · rcases List.mem_cons.mp hrow with rfl | hrow
            · simp [hlenB]
            · simp at hrow
        rw [my_func_dot_eq_gramSpec hrect, hmat,
          gramSpec_two_rows _ _ 100000 (by simp [hlenA]) (by simp [hlenB]),
          npSum_rowMul_ofNat, npSum_rowMul_ofNat, npSum_rowMul_ofNat, npSum_rowMul_ofNat,
          dotNat_comm dsB dsA, ← h3, ← h4, ← h5]
        rfl
